import Mathlib

/-!
Verification of the ScriptMentor PDF-service screenplay-parsing core.

This file is a shallow embedding, in Lean 4, of the line-classification and
scene-assembly engine of the repository (`screenplay_parser.py` together with
`utils/pattern_enhancer.py`).  Python strings are modelled as `List Char`
(ASCII; the inputs are PDF-extracted plain text).  Each Python regular
expression used by the code is translated into a bespoke executable matcher
that reproduces the behaviour of the `re` module on the pattern in question
(leftmost match, greedy quantifiers with backtracking where the character
classes overlap, `\b` word boundaries, `^`/`$` anchors including their
MULTILINE forms).  Floating-point confidence weights are modelled in
hundredths as naturals: every reachable score is either 0, a single weight,
or a sum of weights that is far from every threshold, so the integer model
is extensionally faithful to the float arithmetic of the source.

Theorems at the end of the file settle the frozen claims about this engine.
-/

set_option maxRecDepth 20000

namespace ScreenplayPDF

/-- A Python string, as its list of characters. -/
abbrev Str := List Char

/-- Characters of a Lean string literal. -/
def strOf (s : String) : Str := s.data

/-- Python whitespace (the class `\s` and the default `str.strip` set, ASCII). -/
def isWsChar (c : Char) : Bool :=
  c == ' ' || c == '\t' || c == '\n' || c == '\r' || c == '\x0b' || c == '\x0c'

/-- Python `str.lstrip()`. -/
def stripL (s : Str) : Str := s.dropWhile isWsChar

/-- Python `str.strip()`. -/
def strip (s : Str) : Str := ((s.dropWhile isWsChar).reverse.dropWhile isWsChar).reverse

/-- `len(line) - len(line.lstrip())`: the number of leading whitespace characters. -/
def leadingWsCount (s : Str) : Nat := (s.takeWhile isWsChar).length

/-- Python `str.lower()` (ASCII). -/
def lowerStr (s : Str) : Str := s.map Char.toLower

/-- Python `str.upper()` (ASCII). -/
def upperStr (s : Str) : Str := s.map Char.toUpper

/-- Case-sensitive prefix test. -/
def isPrefix : Str → Str → Bool
  | [], _ => true
  | _ :: _, [] => false
  | a :: as, b :: bs => a == b && isPrefix as bs

/-- Case-insensitive prefix test. -/
def isPrefixCI : Str → Str → Bool
  | [], _ => true
  | _ :: _, [] => false
  | a :: as, b :: bs => a.toLower == b.toLower && isPrefixCI as bs

/-- Substring containment (case-sensitive). -/
def isSub (p : Str) (s : Str) : Bool :=
  match s with
  | [] => p.isEmpty
  | c :: rest => isPrefix p (c :: rest) || isSub p rest

/-- Case-sensitive suffix test. -/
def isSuffix (p : Str) (s : Str) : Bool := isPrefix p.reverse s.reverse

/-- Python `\w` (ASCII). -/
def isWordChar (c : Char) : Bool := c.isAlpha || c.isDigit || c == '_'

/-- ASCII upper-case letter (the regex class `[A-Z]` without `re.IGNORECASE`). -/
def isUC (c : Char) : Bool := 'A' ≤ c && c ≤ 'Z'

/-- ASCII lower-case letter. -/
def isLC (c : Char) : Bool := 'a' ≤ c && c ≤ 'z'

/-- ASCII letter (the class `[A-Z]` or `[a-z]` under `re.IGNORECASE`). -/
def isLetter (c : Char) : Bool := isUC c || isLC c

/-- ASCII digit. -/
def isDigitChar (c : Char) : Bool := '0' ≤ c && c ≤ '9'

/-- A Python `\b` between the token-edge character `edge` and the adjacent
text character `adj` (`none` at a string end): word-ness must differ. -/
def boundaryOk (edge : Char) (adj : Option Char) : Bool :=
  match adj with
  | none => isWordChar edge
  | some c => isWordChar edge != isWordChar c

/-- Match of `\btok\b` (case-insensitive) at the head of `s`, where `prev` is
the character of the text immediately before this position. -/
def tokenAt (tok : Str) (prev : Option Char) (s : Str) : Bool :=
  match tok with
  | [] => false
  | tf :: _ =>
    boundaryOk tf prev && isPrefixCI tok s &&
    (match tok.getLast? with
     | some tl => boundaryOk tl (s.drop tok.length).head?
     | none => false)

def hasTokenCIAux (tok : Str) (prev : Option Char) (s : Str) : Bool :=
  match s with
  | [] => false
  | c :: rest => tokenAt tok prev (c :: rest) || hasTokenCIAux tok (some c) rest

/-- `re.search(r'\btok\b', s, re.IGNORECASE)` for a literal token. -/
def hasTokenCI (tok : Str) (s : Str) : Bool := hasTokenCIAux tok none s

def hasAnyTokenCI (toks : List Str) (s : Str) : Bool := toks.any (fun t => hasTokenCI t s)

/-- `re.match(r'^(w)\b', s, re.IGNORECASE)` for a literal alternative `w`:
prefix match with a word boundary after it. -/
def startsTokenCI (tok : Str) (s : Str) : Bool :=
  isPrefixCI tok s &&
  (match tok.getLast? with
   | some tl => boundaryOk tl (s.drop tok.length).head?
   | none => false)

def startsAnyTokenCI (toks : List Str) (s : Str) : Bool := toks.any (fun t => startsTokenCI t s)

def startsAnyCI (toks : List Str) (s : Str) : Bool := toks.any (fun t => isPrefixCI t s)

def wsRunLen (s : Str) : Nat := (s.takeWhile isWsChar).length

def wordRunLen (s : Str) : Nat := (s.takeWhile isWordChar).length

def letterRunLen (s : Str) : Nat := (s.takeWhile isLetter).length

def digitRunLen (s : Str) : Nat := (s.takeWhile isDigitChar).length

def ucRunLen (s : Str) : Nat := (s.takeWhile isUC).length

/-- A `$` anchor without MULTILINE also matches just before one final newline. -/
def dropFinalNL (s : Str) : Str :=
  match s.getLast? with
  | some c => if c == '\n' then s.dropLast else s
  | none => s

/-- The character at offset `n`, if any. -/
def charAt (s : Str) (n : Nat) : Option Char := (s.drop n).head?

/-- Python `str.isupper()`: at least one cased character and no lower-case one. -/
def pyIsUpper (s : Str) : Bool := s.any isLetter && !(s.any isLC)

/-- Python `str.isdigit()` (ASCII). -/
def pyIsDigit (s : Str) : Bool := !s.isEmpty && s.all isDigitChar

/-! ### Pattern library (`utils/pattern_enhancer.py`) -/

/-- `EnhancedScreenplayPatterns.is_scene_heading`.  The source strips and
upper-cases the line, then checks `line == line.upper()` (vacuously true
after upper-casing), a 10–100 length bound, and the three
`scene_patterns` regexes (two anchored prefixes and one `re.search` for a
literal `- <time-of-day>` substring). -/
def isSceneHeading (line0 : Str) : Bool :=
  let line := upperStr (strip line0)
  (10 ≤ line.length && line.length ≤ 100) &&
  (["INT.", "EXT.", "EST.", "INT/EXT.", "INTERIOR", "EXTERIOR"].any
      (fun p => isPrefix (strOf p) line) ||
   ["- DAY", "- NIGHT", "- DAWN", "- DUSK", "- MORNING", "- AFTERNOON",
    "- EVENING", "- LATER", "- CONTINUOUS"].any
      (fun p => isSub (strOf p) line))

/-- The loose corruption alternative
`[C]{1,3}[O]{1,3}[N]{1,3}[T]{1,3}[''']*D{1,2}` of the CONT'D patterns,
case-insensitively, matched against a whole word. -/
def looseContd (w0 : Str) : Bool :=
  let w := lowerStr w0
  let cs := (w.takeWhile (· == 'c')).length
  let w1 := w.drop cs
  let os := (w1.takeWhile (· == 'o')).length
  let w2 := w1.drop os
  let ns := (w2.takeWhile (· == 'n')).length
  let w3 := w2.drop ns
  let ts := (w3.takeWhile (· == 't')).length
  let w4 := w3.drop ts
  let qs := (w4.takeWhile (· == '\'')).length
  let w5 := w4.drop qs
  let ds := (w5.takeWhile (· == 'd')).length
  1 ≤ cs && cs ≤ 3 && 1 ≤ os && os ≤ 3 && 1 ≤ ns && ns ≤ 3 &&
  1 ≤ ts && ts ≤ 3 && 1 ≤ ds && ds ≤ 2 && (w5.drop ds).isEmpty

/-- The parenthesised continuation-marker body
`(CONT'?D|MORE|[C]{1,3}[O]{1,3}[N]{1,3}[T]{1,3}[''']*D{1,2})`, case-insensitively. -/
def contdInner (w : Str) : Bool :=
  let lw := lowerStr w
  lw == strOf "contd" || lw == strOf "cont'd" || lw == strOf "more" || looseContd w

/-- Index of the first `(` in `s`, if any. -/
def firstParenIdx (s : Str) : Option Nat :=
  match s with
  | [] => none
  | c :: rest =>
    if c == '(' then some 0 else (firstParenIdx rest).map (· + 1)

/-- The character class `[A-Z\s\-\.#0-9]` under `re.IGNORECASE`. -/
def inContdClass (c : Char) : Bool :=
  isLetter c || isWsChar c || c == '-' || c == '.' || c == '#' || isDigitChar c

/-- `re.search(r'^[A-Z][A-Z\s\-\.#0-9]+\s*\((CONT'?D|MORE|...)\)$', text, re.IGNORECASE)`:
the whole line is a name-shaped run followed by a parenthesised continuation
marker.  Since `\s` is contained in the bracketed class and the class
excludes `(`, the `(` consumed by the pattern is the first one in the text,
preceded by at least one class character. -/
def contdFullMatch (text : Str) : Bool :=
  let t := dropFinalNL text
  match t with
  | [] => false
  | c :: rest =>
    isLetter c && isSuffix (strOf ")") t &&
    (match firstParenIdx rest with
     | some k =>
       1 ≤ k && (rest.take k).all inContdClass &&
       contdInner ((rest.drop (k + 1)).dropLast)
     | none => false)

/-- `re.sub(r'\s*\([^)]+\)', '', line)`: delete every whitespace-prefixed
parenthetical group.  `fuel` bounds the scan (call with the string length). -/
def stripParens (fuel : Nat) (s : Str) : Str :=
  match fuel, s with
  | _, [] => []
  | 0, s => s
  | fuel + 1, c :: rest =>
    let w := wsRunLen (c :: rest)
    let afterWs := (c :: rest).drop w
    match afterWs with
    | '(' :: inner =>
      let r := (inner.takeWhile (· != ')')).length
      if 1 ≤ r && charAt inner r == some ')' then
        stripParens fuel (inner.drop (r + 1))
      else c :: stripParens fuel rest
    | _ => c :: stripParens fuel rest

/-- The `character_exclusions` set of `EnhancedScreenplayPatterns`. -/
def characterExclusions : List Str :=
  ["WINDOW", "DOOR", "TABLE", "CHAIR", "BAR", "HALLWAY", "ROOM",
   "KITCHEN", "BATHROOM", "OFFICE", "CAR", "PHONE", "COMPUTER",
   "BUILDING", "HOUSE", "STREET", "PARK", "STORE", "RESTAURANT",
   "WORK DESK", "CLOTHING RACK", "WALL MIRROR", "DANCE FLOOR",
   "ANGLE ON", "CLOSE ON", "PHONE CAM POV", "END PHONE CAM POV",
   "WIDE SHOT", "CLOSE UP", "MEDIUM SHOT", "POV", "INSERT",
   "FADE IN", "FADE OUT", "CUT TO", "DISSOLVE TO", "SMASH CUT",
   "THE END", "CONTINUED", "MORE", "BEAT", "FADE TO",
   "SUPER TITLE", "TITLE CARD", "SUPER", "GRAPHICS", "TEXT ON SCREEN",
   "BEGIN MONTAGE", "END MONTAGE", "MONTAGE", "SEQUENCE",
   "LATER", "MOMENTS LATER", "CONTINUOUS", "SAME TIME",
   "MEANWHILE", "ELSEWHERE", "NEXT DAY", "THAT NIGHT",
   "PRE-LAP", "MUSIC", "SOUND", "VOICE OVER", "NARRATOR",
   "CRYPTO ART", "LED SCREEN", "DIGITAL WALLET", "COLD WALLET",
   "VIP BOOTHS", "BODYGUARDS", "CHAMPAGNE", "BOMBER JACKET"].map strOf

/-- The two `transition_patterns` of the pattern library (anchored,
case-sensitive `re.search`). -/
def transitionPatternMatch (line : Str) : Bool :=
  ["FADE IN", "FADE OUT", "CUT TO", "DISSOLVE TO", "SMASH CUT TO",
   "MATCH CUT", "JUMP CUT", "CROSS CUT"].any (fun p => isPrefix (strOf p) line)

/-- `EnhancedScreenplayPatterns.is_character_name` (the stateless library
predicate used by the CONT'D-block scan). -/
def isCharacterNameP (line0 : Str) : Bool :=
  let line := strip line0
  if contdFullMatch line then true
  else if !(!(line.any isLC) && 2 ≤ line.length && line.length ≤ 30) then false
  else
    let cleanLine := strip (stripParens line.length line)
    if characterExclusions.any (fun e => cleanLine == e) then false
    else if isSceneHeading line then false
    else if transitionPatternMatch line then false
    else if cleanLine.length ≤ 2 || pyIsDigit cleanLine then false
    else if !(cleanLine.any isUC) then false
    else true

/-! ### Classifier helper predicates (`ElementClassifier`) -/

/-- `_is_pre_scene_element`: `re.match` of a list of prefix patterns against
`text.upper()`.  All the patterns are literal prefixes followed by `.*`
(with optional colons, also subsumed by `.*`), except `VOICE.?OVER` (one
optional non-newline character between the words) and `V\.?O\.?`
(optional dots). -/
def isPreSceneElement (text : Str) : Bool :=
  let u := upperStr text
  ["OVER BLACK", "FADE IN", "BLACK SCREEN", "TITLE CARD", "SUPER",
   "SUPER TITLE", "PRELAP", "PRE-LAP", "INSERT", "TEASER", "COLD OPEN",
   "OPENING TITLE", "MAIN TITLE", "END TITLE", "CREDITS"].any
      (fun p => isPrefix (strOf p) u) ||
  (isPrefix (strOf "VOICEOVER") u) ||
  (isPrefix (strOf "VOICE") u &&
    (match charAt u 5 with
     | some c => !(c == '\n') && isPrefix (strOf "OVER") (u.drop 6)
     | none => false)) ||
  isPrefix (strOf "VO") u || isPrefix (strOf "V.O") u

/-- `_is_transition`: `text.upper().startswith` over a fixed list. -/
def isTransition (text : Str) : Bool :=
  let u := upperStr text
  ["FADE OUT", "FADE TO", "CUT TO:", "DISSOLVE TO:",
   "SMASH CUT TO:", "MATCH CUT:", "JUMP CUT:",
   "FADE TO BLACK", "FADE TO WHITE", "THE END",
   "BEGIN MONTAGE", "END MONTAGE", "START MONTAGE",
   "MONTAGE:", "SERIES OF SHOTS:", "SEQUENCE:"].any (fun t => isPrefix (strOf t) u)

/-- `_is_scene_element`: `text.upper().startswith` over scene prefixes. -/
def isSceneElement (text : Str) : Bool :=
  let u := upperStr text
  ["INT.", "EXT.", "INT/", "EXT/", "I/E."].any (fun t => isPrefix (strOf t) u)

/-- The character class `[A-Z\-\.#0-9]` (case-sensitive, no whitespace). -/
def inR0Class (c : Char) : Bool :=
  isUC c || c == '-' || c == '.' || c == '#' || isDigitChar c

/-- After a `[A-Z][A-Z\-\.#0-9]*` token: match `(\s+[A-Z][A-Z\-\.#0-9]*){0,2}\s*\(`.
The class excludes whitespace and `(`, so every run is forced maximal and
only the number of repeated groups is backtracked over. -/
def r0aTail (groupsLeft : Nat) (s : Str) : Bool :=
  (match (s.dropWhile isWsChar) with
   | '(' :: _ => true
   | _ => false) ||
  (match groupsLeft with
   | 0 => false
   | g + 1 =>
     1 ≤ wsRunLen s &&
     (match s.drop (wsRunLen s) with
      | c :: r => isUC c && r0aTail g (r.dropWhile inR0Class)
      | [] => false))

/-- `re.match(r'^[A-Z][A-Z\-\.#0-9]*(\s+[A-Z][A-Z\-\.#0-9]*){0,2}\s*\(', trimmed)` -/
def r0aMatch (t : Str) : Bool :=
  match t with
  | c :: rest => isUC c && r0aTail 2 (rest.dropWhile inR0Class)
  | [] => false

/-- `re.search(r'\((CONT'?D|MORE|...)\)$', trimmed, re.IGNORECASE)`: the text
ends in a parenthesised continuation marker. -/
def endsWithContdParen (text : Str) : Bool :=
  let t := dropFinalNL text
  isSuffix (strOf ")") t &&
  (List.range t.length).any (fun k =>
    charAt t k == some '(' && contdInner ((t.drop (k + 1)).dropLast))

/-- Rule 0 of `classify_line`: the conjunction of the two priority
CHARACTER (CONT'D) regex tests. -/
def r0Priority (t : Str) : Bool := r0aMatch t && endsWithContdParen t

/-- The character class `[A-Z\s\-\.\']` of the main character-name shape. -/
def inNameClass (c : Char) : Bool :=
  isUC c || isWsChar c || c == '-' || c == '.' || c == '\''

/-- The class `[A-Z\.\s\']` inside the optional trailing parenthetical. -/
def inExtClass (c : Char) : Bool :=
  isUC c || c == '.' || isWsChar c || c == '\''

/-- `re.match(r'^[A-Z][A-Z\s\-\.\']+(\s*\([A-Z\.\s\']+\))?$', text)` (case-sensitive).
`\s` is contained in the name class and the class excludes `(`, so the match
either covers the whole text with name-class characters, or splits at the
first `(`. -/
def mainNameMatch (text : Str) : Bool :=
  let t := dropFinalNL text
  match t with
  | [] => false
  | c :: rest =>
    isUC c &&
    ((!rest.isEmpty && rest.all inNameClass) ||
     (match firstParenIdx rest with
      | some k =>
        1 ≤ k && (rest.take k).all inNameClass &&
        isSuffix (strOf ")") rest &&
        (let inner := (rest.drop (k + 1)).dropLast
         !inner.isEmpty && inner.all inExtClass)
      | none => false))

/-- `ElementClassifier._is_character_name`.  Notes on dead code in the source:
`hasattr(self.patterns, 'CHARACTER_EXCLUSIONS')` is false (the attribute is
`character_exclusions`), so the exclusion check never fires; and the
look-ahead over `lines` returns `True` on both paths, so the result does not
depend on `position`/`lines`. -/
def isCharacterNameC (text : Str) (leadingSpaces : Nat)
    (_position : Nat) (_lines : List Str) : Bool :=
  if contdFullMatch text then true
  else if !(32 ≤ leadingSpaces && leadingSpaces ≤ 48) then false
  else
    match text with
    | [] => false
    | c :: _ =>
      if !(c == c.toUpper) then false
      else mainNameMatch text

/-! ### Data model -/

/-- The closed set of element types emitted by the classifier. -/
inductive ElemType where
  | scene_heading
  | character
  | dialogue
  | parenthetical
  | transition
  | pre_scene
  | action
deriving DecidableEq, Repr

/-- The classifier's output record `{type, text, indent}` (the parser adds a
page number after classification). -/
structure Element where
  type : ElemType
  text : Str
  indent : Nat
deriving DecidableEq, Repr

/-- `ElementClassifier`'s mutable state: `last_element` (a string or `None`
in Python, here an optional element type since only the seven type names are
ever assigned) and `in_dialogue_block`. -/
structure CState where
  last : Option ElemType
  inDialogueBlock : Bool
deriving DecidableEq, Repr

/-- The fresh state built by `ElementClassifier.__init__`. -/
def initCState : CState := ⟨none, false⟩

/-! ### Strong-action-signal predicates -/

/-- `_contains_definitive_action_patterns`: four `re.search` patterns
(IGNORECASE), each anchored or token-bounded. -/
def containsDefinitiveActionPatterns (text : Str) : Bool :=
  startsAnyCI (["int.", "ext.", "fade", "cut to:", "dissolve"].map strOf) text ||
  ((["he", "she", "it", "they"].map strOf).any fun sub =>
    isPrefixCI sub text &&
    (let r := text.drop sub.length
     1 ≤ wsRunLen r &&
     startsAnyCI (["walk", "run", "move", "enter", "exit"].map strOf)
       (r.drop (wsRunLen r)))) ||
  hasAnyTokenCI (["camera", "angle on", "close on", "wide shot"].map strOf) text ||
  startsAnyTokenCI (["meanwhile", "suddenly", "later", "then"].map strOf) text

/-- Match a word equal to `root` or `root + "s"` at the head of `s`
(the regex fragment `roots?\b`). -/
def wordRootS (root : Str) (s : Str) : Bool :=
  startsTokenCI root s || startsTokenCI (root ++ strOf "s") s

/-- The negative look-ahead `(?!\s+(a\s+(dump|break|chance|look|while|moment)|an?\s+))`
of the first basic-action pattern.  The six-word alternative is subsumed by
`an?\s+` (both demand `a` followed by whitespace), so the look-ahead matches
iff whitespace, then `a`, then either whitespace or `n` plus whitespace. -/
def bp1Lookahead (s : Str) : Bool :=
  1 ≤ wsRunLen s &&
  (match s.drop (wsRunLen s) with
   | 'a' :: r =>
     1 ≤ wsRunLen r ||
     (match r with
      | 'n' :: r2 => 1 ≤ wsRunLen r2
      | _ => false)
   | _ => false)

def bp1Verbs : List Str :=
  ["pull", "grab", "open", "close", "walk", "move", "turn", "look", "put",
   "drie", "follow", "slip", "step", "roll", "run", "hand"].map strOf

/-- One scan position of basic-action pattern 1:
`\b[a-z]{2,}\s+(pulls?|…|hands?)\b(?!…)`. -/
def bp1Aux (prev : Option Char) (s : Str) : Bool :=
  match s with
  | [] => false
  | c :: rest =>
    ((match prev with | none => true | some p => !isWordChar p) &&
     (let L := ((c :: rest).takeWhile isLC).length
      2 ≤ L &&
      (let r := (c :: rest).drop L
       1 ≤ wsRunLen r &&
       (let r2 := r.drop (wsRunLen r)
        bp1Verbs.any (fun v => wordRootS v r2) &&
        !bp1Lookahead (r2.drop (wordRunLen r2)))))) ||
    bp1Aux (some c) rest

/-- Basic-action pattern 2:
`^(the|a|an)\s+\w+\s+(approaches?|interjects?|opens?|closes?|rings?|buzzes?|don't|doesn't)\b`. -/
def basicP2 (s : Str) : Bool :=
  (["the", "a", "an"].map strOf).any fun art =>
    isPrefixCI art s &&
    (let r := s.drop art.length
     1 ≤ wsRunLen r &&
     (let r2 := r.drop (wsRunLen r)
      1 ≤ wordRunLen r2 &&
      (let r3 := r2.drop (wordRunLen r2)
       1 ≤ wsRunLen r3 &&
       (let r4 := r3.drop (wsRunLen r3)
        (["approache", "interject", "open", "close", "ring", "buzze"].map strOf).any
            (fun v => wordRootS v r4) ||
        startsTokenCI (strOf "don't") r4 || startsTokenCI (strOf "doesn't") r4))))

def bp3Nouns : List Str :=
  ["phone", "hand", "hands", "eye", "eyes", "face", "laptop", "wallet",
   "clutches", "jacket"].map strOf

/-- Basic-action pattern 3: `[a-z]+\'s\s+(phone|hands?|…|jacket)\b`. -/
def basicP3Aux (prev : Option Char) (s : Str) : Bool :=
  match s with
  | [] => false
  | c :: rest =>
    (c == '\'' &&
     (match prev with | some p => isLC p | none => false) &&
     (match rest with
      | 's' :: r2 =>
        1 ≤ wsRunLen r2 &&
        bp3Nouns.any (fun n => startsTokenCI n (r2.drop (wsRunLen r2)))
      | _ => false)) ||
    basicP3Aux (some c) rest

/-- Basic-action pattern 5: `\([0-9]+s?\),?\s+[a-z]`. -/
def basicP5Aux (s : Str) : Bool :=
  match s with
  | [] => false
  | c :: rest =>
    (c == '(' &&
     (let d := digitRunLen rest
      1 ≤ d &&
      (let r1 := rest.drop d
       let r2 := if r1.head? == some 's' then r1.drop 1 else r1
       match r2 with
       | ')' :: r3 =>
         let r4 := if r3.head? == some ',' then r3.drop 1 else r3
         1 ≤ wsRunLen r4 &&
         (match r4.drop (wsRunLen r4) with
          | c2 :: _ => isLC c2
          | [] => false)
       | _ => false))) ||
    basicP5Aux rest

/-- Scan for `\b(subj…)\s+(verbs?…)\b` (basic-action patterns 7 and 8). -/
def scanSubjVerb (subjects verbs : List Str) (prev : Option Char) (s : Str) : Bool :=
  match s with
  | [] => false
  | c :: rest =>
    ((match prev with | none => true | some p => !isWordChar p) &&
     subjects.any fun sub =>
       isPrefixCI sub (c :: rest) &&
       (let r := (c :: rest).drop sub.length
        1 ≤ wsRunLen r &&
        verbs.any (fun v => wordRootS v (r.drop (wsRunLen r))))) ||
    scanSubjVerb subjects verbs (some c) rest

/-- `_is_basic_action_line`: ten `re.search` patterns over the lowered,
stripped text. -/
def isBasicActionLine (text : Str) : Bool :=
  let tl := lowerStr (strip text)
  bp1Aux none tl ||
  basicP2 tl ||
  basicP3Aux none tl ||
  hasAnyTokenCI
    (["pull out", "pulls out", "put down", "puts down", "pick up", "picks up",
      "turn around", "turns around", "walk to", "walks to", "move to",
      "moves to", "slip out", "slips out", "step out", "steps out",
      "grab", "grabs", "clutche", "clutches"].map strOf) tl ||
  basicP5Aux tl ||
  hasAnyTokenCI
    (["surrounded by", "frame a", "hang", "sparkle in", "sparkles in",
      "approaches"].map strOf) tl ||
  scanSubjVerb (["she", "he", "they"].map strOf)
    (["slip", "grab", "step", "roll", "run", "head", "hand"].map strOf) none tl ||
  scanSubjVerb (["phone", "wallet", "device"].map strOf)
    (["buzze", "ring", "open", "display"].map strOf) none tl ||
  hasAnyTokenCI
    (["out of his", "into his", "around her", "to her", "from the"].map strOf) tl

/-- The narrow `strong_dialogue_breakers` list used by `_is_clearly_action`
while inside a dialogue block. -/
def strongDialogueBreakers : List Str :=
  ["hannah walks", "hannah moves", "hannah enters", "hannah exits",
   "she walks", "he walks", "she moves", "he moves", "she enters", "he enters",
   "angle on", "close on", "wide shot", "work desk", "clothing rack",
   "as we push in", "we push in", "push in on", "pull out", "zoom in", "zoom out",
   "the view of", "we see", "we witness", "fade in", "fade out", "cut to"].map strOf

/-- The broad `clear_action_indicators` list used by `_is_clearly_action`
outside a dialogue block. -/
def clearActionIndicators : List Str :=
  ["hannah walks", "hannah moves", "hannah runs", "hannah sits", "hannah stands",
   "hannah enters", "hannah exits", "hannah approaches", "hannah leaves",
   "hannah picks up", "hannah puts down", "hannah grabs", "hannah throws",
   "hannah examines", "hannah studies", "hannah looks at", "hannah stares",
   "hannah opens", "hannah closes", "hannah turns", "hannah spins",
   "she walks", "he walks", "she moves", "he moves", "she runs", "he runs",
   "she sits", "he sits", "she stands", "he stands", "she enters", "he enters",
   "she exits", "he exits", "she picks", "he picks", "she grabs", "he grabs",
   "she examines", "he examines", "she looks", "he looks", "she opens", "he opens",
   " points to", " walks to", " moves to", " turns to", " looks at", " stares at",
   " grabs the", " picks up", " puts down", " throws the", " holds the",
   " waves to", " nods to", " gestures", " approaches", " enters", " exits",
   "billionaire", "millionaire", "trust-funder", "crypto billionaire", "influencer",
   "turned crypto", "turned into", "is a ", "was a ", "became a ",
   "the view of", "we see", "we witness", "as we push in", "over black",
   "fade in", "fade out", "cut to", "dissolve to", "begin montage", "end montage",
   "work desk", "clothing rack", "wall mirror", "phone cam pov", "end phone cam",
   "angle on", "close on", "wide shot", "tight shot", "dance floor",
   "it's complete", "it's finished", "the door", "the window", "the room",
   "the table", "the chair", "the phone", "the computer", "surrounded by",
   "girls protest", "proud boys", "storm the capitol", "world trade center",
   "is attacked", "is laid to rest", "laid to rest", "oil fields", "on fire in",
   "is beaten", "nuclear bomb", "ignites", "blinding white", "consumes the screen",
   "covid-19 pandemic", "hoarding toilet paper", "protesting masks",
   "refusing to get", "saying goodbye", "dying family members",
   "million deaths", "antarctic ice shelf", "collapses into",
   "putin shakes hands", "donald trump", "tiananmen square", "massacre",
   "hurricane katrina", "polar bear", "takes its last breath", "afghanistan",
   "women's rights march", "citizens in myanmar", "war in ukraine",
   "arab spring", "economic collapse", "amazon rainforest", "columbine",
   "school shooting", "troops in", "slaughter of", "princess diana"].map strOf

/-- `re.match(r'^[A-Z][A-Z\s\-\.]{3,}(?::|--|\s-\s)', text)` of `_is_clearly_action`:
an all-caps location-style prefix followed by colon, double dash, or a
whitespace-wrapped dash.  The bracketed class overlaps the group, so every
backtracking split point of the `{3,}` run is tried. -/
def locationPrefixMatch (t : Str) : Bool :=
  match t with
  | [] => false
  | c :: rest =>
    isUC c &&
    (let run := (rest.takeWhile
        (fun ch => isUC ch || isWsChar ch || ch == '-' || ch == '.')).length
     (List.range (run + 1)).any fun k =>
       3 ≤ k &&
       (match rest.drop k with
        | ':' :: _ => true
        | '-' :: '-' :: _ => true
        | a :: '-' :: b :: _ => isWsChar a && isWsChar b
        | _ => false))

/-- `_is_clearly_action`: narrow breaker list inside a dialogue block;
broad indicator list, location prefix, or montage vocabulary outside. -/
def isClearlyAction (inBlock : Bool) (text : Str) : Bool :=
  let tl := lowerStr text
  if inBlock then strongDialogueBreakers.any (fun p => isSub p tl)
  else
    clearActionIndicators.any (fun p => isSub p tl) ||
    locationPrefixMatch text ||
    (["montage", "sequence", "series of"].map strOf).any (fun w => isSub w tl)

/-! ### `_contains_action_indicators` confidence signals -/

/-- Scene-header prefixes (0.98): `^(INT\.|EXT\.|INT\s|EXT\s|FADE IN:|…)`, IGNORECASE. -/
def sceneHeadersSignal (t : Str) : Bool :=
  startsAnyCI
    (["int.", "ext.", "fade in:", "fade out:", "fade to:", "cut to:",
      "dissolve to:", "smash cut:", "match cut:", "jump cut:", "close on",
      "angle on", "insert", "montage", "flashback", "flash forward",
      "intercut", "continuous", "later", "moments later"].map strOf) t ||
  (isPrefixCI (strOf "int") t &&
    (match charAt t 3 with | some c => isWsChar c | none => false)) ||
  (isPrefixCI (strOf "ext") t &&
    (match charAt t 3 with | some c => isWsChar c | none => false))

def thirdMotionVerbs : List Str :=
  ["walk", "stand", "sit", "move", "turn", "look", "take", "goe", "run",
   "enter", "exit", "crosse", "approache", "reache", "grab", "open", "close",
   "stare", "watche", "wait", "stop", "start", "continue", "follow", "lead",
   "pushe", "pull"].map strOf

/-- After a third-person subject: `\s+(walks?|…|pulls?)` as a prefix. -/
def afterSubjectVerb (r : Str) : Bool :=
  1 ≤ wsRunLen r && startsAnyCI thirdMotionVerbs (r.drop (wsRunLen r))

/-- Third-person subjects (0.94):
`^(He|She|It|They|His|Her|Its|Their|The\s+\w+|A\s+\w+|An\s+\w+)\s+(walks?|…)`. -/
def thirdPersonSignal (t : Str) : Bool :=
  ((["he", "she", "it", "they", "his", "her", "its", "their"].map strOf).any fun sub =>
    isPrefixCI sub t && afterSubjectVerb (t.drop sub.length)) ||
  ((["the", "a", "an"].map strOf).any fun art =>
    isPrefixCI art t &&
    (let r := t.drop art.length
     1 ≤ wsRunLen r &&
     (let r2 := r.drop (wsRunLen r)
      1 ≤ wordRunLen r2 && afterSubjectVerb (r2.drop (wordRunLen r2)))))

/-- One scan position of `\b(is|are|was|were)\s+\w+ing\b`. -/
def progressiveAt (s : Str) : Bool :=
  (["is", "are", "was", "were"].map strOf).any fun w =>
    isPrefixCI w s &&
    (let r := s.drop w.length
     1 ≤ wsRunLen r &&
     (let r2 := r.drop (wsRunLen r)
      4 ≤ wordRunLen r2 &&
      isSuffix (strOf "ing") (lowerStr (r2.take (wordRunLen r2)))))

def progressiveAux (prev : Option Char) (s : Str) : Bool :=
  match s with
  | [] => false
  | c :: rest =>
    ((match prev with | none => true | some p => !isWordChar p) &&
     progressiveAt (c :: rest)) ||
    progressiveAux (some c) rest

/-- Progressive continuous (0.88). -/
def progressiveSignal (t : Str) : Bool := progressiveAux none t

/-- Camera vocabulary (0.95): `\b(CAMERA|…|ESTABLISHING)\b`, IGNORECASE. -/
def cameraSignal (t : Str) : Bool :=
  hasAnyTokenCI
    (["camera", "crane", "pan", "zoom", "track", "dolly", "pull back",
      "push in", "reveal", "focus", "frame", "shot", "angle", "pov",
      "p.o.v.", "view", "wider", "closer", "tight on", "moving", "handheld",
      "steadicam", "aerial", "establishing"].map strOf) t

def parenLits : List Str :=
  ["continuing", "cont'd", "o.s.", "v.o.", "beat", "pause", "then",
   "quietly", "loudly", "sarcastically"].map strOf

def parenOptS : List Str := ["whisper", "shout", "yell", "scream"].map strOf

/-- The alternatives inside `\((continuing|CONT'D|…|[a-z]+ing|[a-z]+ly)\)`,
matched right after an opening parenthesis (IGNORECASE, so the letter
classes cover both cases). -/
def parenAltsMatch (r : Str) : Bool :=
  (parenLits.any fun w => isPrefixCI (w ++ strOf ")") r) ||
  (parenOptS.any fun w =>
    isPrefixCI (w ++ strOf ")") r || isPrefixCI (w ++ strOf "s)") r) ||
  (isPrefixCI (strOf "to") r &&
   (let r2 := r.drop 2
    1 ≤ wsRunLen r2 &&
    (let r3 := r2.drop (wsRunLen r2)
     2 ≤ letterRunLen r3 && charAt r3 (letterRunLen r3) == some ')'))) ||
  ((["into", "on"].map strOf).any fun w =>
    isPrefixCI w r &&
    (let r2 := r.drop w.length
     1 ≤ wsRunLen r2 && isPrefixCI (strOf "phone)") (r2.drop (wsRunLen r2)))) ||
  (let L := letterRunLen r
   (4 ≤ L && isSuffix (strOf "ing") (lowerStr (r.take L)) && charAt r L == some ')') ||
   (3 ≤ L && isSuffix (strOf "ly") (lowerStr (r.take L)) && charAt r L == some ')'))

def parenDirectionsAux (s : Str) : Bool :=
  match s with
  | [] => false
  | '(' :: rest => parenAltsMatch rest || parenDirectionsAux rest
  | _ :: rest => parenDirectionsAux rest

/-- Parenthetical stage directions (0.93). -/
def parenDirectionsSignal (t : Str) : Bool := parenDirectionsAux t

/-- Spatial/temporal transitions (0.84): `^(Meanwhile|…|As|While)\b`, IGNORECASE. -/
def spatialTransitionsSignal (t : Str) : Bool :=
  startsAnyTokenCI
    (["meanwhile", "suddenly", "now", "then", "later", "finally", "just then",
      "at that moment", "behind", "above", "below", "inside", "outside",
      "across", "through", "beyond", "near", "from", "during", "before",
      "after", "as", "while"].map strOf) t

/-- Descriptive articles (0.86):
`^(The|A|An)\s+\w+\s+(is|are|stands|sits|lies|hangs|rests|covers|fills|enters|appears)`. -/
def descriptiveSignal (t : Str) : Bool :=
  (["the", "a", "an"].map strOf).any fun art =>
    isPrefixCI art t &&
    (let r := t.drop art.length
     1 ≤ wsRunLen r &&
     (let r2 := r.drop (wsRunLen r)
      1 ≤ wordRunLen r2 &&
      (let r3 := r2.drop (wordRunLen r2)
       1 ≤ wsRunLen r3 &&
       startsAnyCI
         (["is", "are", "stands", "sits", "lies", "hangs", "rests", "covers",
           "fills", "enters", "appears", "emerges"].map strOf) (r3.drop (wsRunLen r3)))))

/-- After an upper-case run: the tail `(?:\s+[A-Z]{2,})*\b(?![\'\"])` of the
sound-effects pattern, with backtracking over the number of groups. -/
def seChainEnds (fuel : Nat) (s : Str) : Bool :=
  (match s.head? with
   | none => true
   | some c => !isWordChar c && !(c == '\'') && !(c == '"')) ||
  (match fuel with
   | 0 => false
   | f + 1 =>
     let w := wsRunLen s
     let r := s.drop w
     let u := ucRunLen r
     1 ≤ w && 2 ≤ u && seChainEnds f (r.drop u))

def soundEffectsAux (prev : Option Char) (s : Str) : Bool :=
  match s with
  | [] => false
  | c :: rest =>
    ((match prev with | none => true | some p => !isWordChar p) &&
     (let u := ucRunLen (c :: rest)
      2 ≤ u && seChainEnds rest.length ((c :: rest).drop u))) ||
    soundEffectsAux (some c) rest

/-- Sound effects in caps (0.81): `\b[A-Z]{2,}(?:\s+[A-Z]{2,})*\b(?![\'\"])`
(case-sensitive) combined with `not text.isupper()`. -/
def soundEffectsSignal (t : Str) : Bool :=
  soundEffectsAux none t && !pyIsUpper t

/-- Celebrity / proper-name actions (0.95), substrings of the lowered text. -/
def celebritySignal (tl : Str) : Bool :=
  (["dan bilzerian jet skis", "jeff bezos emerges", "elon musk smokes",
    "dan bilzerian", "jeff bezos", "elon musk", "joe rogan podcast",
    "emerges from his", "jet skis", "smokes weed on"].map strOf).any
    (fun p => isSub p tl)

/-- Scene atmosphere (0.77): `^(It's|It is|There's|There is|There are)\s+`. -/
def atmosphereSignal (t : Str) : Bool :=
  (["it's", "it is", "there's", "there is", "there are"].map strOf).any fun w =>
    isPrefixCI w t && 1 ≤ wsRunLen (t.drop w.length)

/-- One scan position of
`\b(as|while|when|during)\s+(he|she|they|it|[A-Z][a-z]+)\s+\w+s?\b`. -/
def simulAt (s : Str) : Bool :=
  (["as", "while", "when", "during"].map strOf).any fun w =>
    isPrefixCI w s &&
    (let r := s.drop w.length
     1 ≤ wsRunLen r &&
     (let r2 := r.drop (wsRunLen r)
      ((["he", "she", "they", "it"].map strOf).any fun sub =>
        isPrefixCI sub r2 &&
        (let r3 := r2.drop sub.length
         1 ≤ wsRunLen r3 && 1 ≤ wordRunLen (r3.drop (wsRunLen r3)))) ||
      (2 ≤ letterRunLen r2 &&
       (let r3 := r2.drop (letterRunLen r2)
        1 ≤ wsRunLen r3 && 1 ≤ wordRunLen (r3.drop (wsRunLen r3))))))

def simulAux (prev : Option Char) (s : Str) : Bool :=
  match s with
  | [] => false
  | c :: rest =>
    ((match prev with | none => true | some p => !isWordChar p) &&
     simulAt (c :: rest)) ||
    simulAux (some c) rest

/-- Simultaneous action (0.79). -/
def simultaneousSignal (t : Str) : Bool := simulAux none t

/-- The additive action score of `_contains_action_indicators`, in
hundredths.  Reachable values are sums of distinct weights from
`{98,94,88,95,93,84,86,81,95,77,79}`; no reachable sum sits close enough to
the 0.85 threshold for float rounding to differ from this integer model. -/
def actionIndicatorScore (text : Str) : Nat :=
  let tl := strip (lowerStr text)
  (if sceneHeadersSignal text then 98 else 0) +
  (if thirdPersonSignal text then 94 else 0) +
  (if progressiveSignal text then 88 else 0) +
  (if cameraSignal text then 95 else 0) +
  (if parenDirectionsSignal text then 93 else 0) +
  (if spatialTransitionsSignal text then 84 else 0) +
  (if descriptiveSignal text then 86 else 0) +
  (if soundEffectsSignal text then 81 else 0) +
  (if celebritySignal tl then 95 else 0) +
  (if atmosphereSignal text then 77 else 0) +
  (if simultaneousSignal text then 79 else 0)

/-- `_contains_action_indicators`: empty (lowered, stripped) text is never
action; otherwise the accumulated score must reach the 0.85 threshold. -/
def containsActionIndicators (text : Str) : Bool :=
  if (strip (lowerStr text)).isEmpty then false
  else 85 ≤ actionIndicatorScore text

/-! ### `_is_likely_dialogue` confidence signals -/

/-- First-person pronouns (0.89). -/
def firstPersonSignal (t : Str) : Bool :=
  hasAnyTokenCI
    (["i", "me", "my", "mine", "myself", "i'm", "i'll", "i'd", "i've"].map strOf) t

/-- Second-person address (0.84). -/
def secondPersonSignal (t : Str) : Bool :=
  hasAnyTokenCI
    (["you", "your", "yours", "yourself", "you're", "you'll", "you'd",
      "you've"].map strOf) t

/-- Contractions (0.86). -/
def contractionsSignal (t : Str) : Bool :=
  hasAnyTokenCI
    (["can't", "won't", "don't", "didn't", "wouldn't", "couldn't",
      "shouldn't", "isn't", "aren't", "wasn't", "weren't", "hasn't",
      "haven't", "hadn't", "that's", "what's", "where's", "who's", "it's",
      "he's", "she's", "we're", "they're", "i'm", "you're", "i'll", "you'll",
      "we'll", "they'll", "i'd", "you'd", "we'd", "they'd", "i've", "you've",
      "we've", "they've", "let's", "here's", "there's"].map strOf) t

/-- Question form (0.91): trailing `?` or an interrogative opener. -/
def questionSignal (t : Str) : Bool :=
  isSuffix (strOf "?") (strip t) ||
  startsAnyTokenCI
    (["what", "where", "when", "who", "why", "how", "can", "could", "would",
      "should", "will", "do", "does", "did", "are", "is", "was", "were",
      "have", "has", "had", "am"].map strOf) t

/-- Imperative openers (0.81). -/
def imperativeSignal (t : Str) : Bool :=
  startsAnyTokenCI
    (["come", "go", "look", "wait", "stop", "listen", "tell", "give", "take",
      "get", "put", "let", "bring", "hold", "shut", "move", "stay", "keep",
      "try", "help", "show", "make", "leave", "sit", "stand", "drop", "open",
      "close", "turn", "run", "walk", "call", "check", "find"].map strOf) t

/-- Conversational fillers (0.83). -/
def fillersSignal (t : Str) : Bool :=
  hasAnyTokenCI
    (["yeah", "yes", "no", "nope", "yep", "uh-huh", "uh", "um", "ah", "oh",
      "hey", "well", "so", "anyway", "maybe", "just", "really", "actually",
      "basically", "literally", "honestly", "seriously", "definitely",
      "absolutely", "exactly", "totally", "right", "sure", "fine", "okay",
      "ok", "alright"].map strOf) t

/-- Emotional exclamations (0.85). -/
def emotionalSignal (t : Str) : Bool :=
  hasAnyTokenCI
    (["jesus", "christ", "god", "damn", "dammit", "hell", "shit", "fuck",
      "fucking", "crap", "wow", "whoa", "holy", "geez", "gosh",
      "bastard"].map strOf) t

/-- The `\s-\s` alternative of the ellipsis pattern. -/
def hasWsDashWs (s : Str) : Bool :=
  match s with
  | a :: '-' :: b :: rest =>
    (isWsChar a && isWsChar b) || hasWsDashWs ('-' :: b :: rest)
  | _ :: rest => hasWsDashWs rest
  | [] => false

/-- Ellipses and dashes (0.76): `(\.\.\.|--|\s-\s)`. -/
def ellipsesSignal (t : Str) : Bool :=
  isSub (strOf "...") t || isSub (strOf "--") t || hasWsDashWs t

/-- First-person opinion openers (0.87). -/
def opinionsSignal (t : Str) : Bool :=
  startsAnyTokenCI
    (["i think", "i know", "i believe", "i feel", "i mean", "i guess",
      "i suppose", "i bet", "i wish", "i hope", "i want", "i need"].map strOf) t

/-- The additive dialogue confidence of `_is_likely_dialogue`, in hundredths.
Reachable values are 0, one weight from `{89,84,86,91,81,83,85,76,87}`, or a
sum of at least two weights (≥ 1.57): the integer model decides every
threshold comparison exactly as the float code does. -/
def dialogueScore (text : Str) : Nat :=
  (if firstPersonSignal text then 89 else 0) +
  (if secondPersonSignal text then 84 else 0) +
  (if contractionsSignal text then 86 else 0) +
  (if questionSignal text then 91 else 0) +
  (if imperativeSignal text then 81 else 0) +
  (if fillersSignal text then 83 else 0) +
  (if emotionalSignal text then 85 else 0) +
  (if ellipsesSignal text then 76 else 0) +
  (if opinionsSignal text then 87 else 0)

/-- `_is_likely_dialogue`: spatial band, basic-action rejection, confidence
scoring with three context-dependent thresholds, and the definitive-action
override.  `position`/`lines` are accepted but unused, as in the source. -/
def isLikelyDialogue (last : Option ElemType) (text : Str) (leadingSpaces : Nat)
    (_position : Nat) (_lines : List Str) : Bool :=
  if leadingSpaces < 18 || leadingSpaces > 35 then false
  else if isBasicActionLine text then false
  else if (strip (lowerStr text)).isEmpty then false
  else
    let score := dialogueScore text
    if containsDefinitiveActionPatterns text then false
    else if 85 ≤ score then true
    else if 75 ≤ score &&
        (last == some .character || last == some .parenthetical ||
         last == some .dialogue) then true
    else if 60 ≤ score && last == some .character then true
    else false

/-! ### CONT'D dialogue-block scan and hyphenated continuation -/

/-- The inner loop of `_is_in_continuation_dialogue_block`: every existing
line strictly between the CONT'D cue and the current position must stay
dialogue-like. -/
def contdInnerCheck (lines : List Str) (lo hi : Nat) : Bool :=
  (List.range (hi - lo)).all fun d =>
    let j := lo + d
    if lines.length ≤ j then true
    else
      let ck := strip (lines.getD j [])
      !(ck.isEmpty || isSceneHeading ck || isCharacterNameP ck ||
        containsDefinitiveActionPatterns ck)

/-- The backward scan of `_is_in_continuation_dialogue_block` over the (at
most five) indices `position-1, …, max(0, position-5)`. -/
def contdBlockLoop (lines : List Str) (position : Nat) : List Nat → Bool
  | [] => false
  | i :: restIdx =>
    if lines.length ≤ i then contdBlockLoop lines position restIdx
    else
      let l := strip (lines.getD i [])
      if contdFullMatch l then contdInnerCheck lines (i + 1) position
      else if isCharacterNameP l || isSceneHeading l then false
      else contdBlockLoop lines position restIdx

/-- `_is_in_continuation_dialogue_block`. -/
def isInContdDialogueBlock (position : Nat) (lines : List Str) : Bool :=
  let startPos := position - 5
  contdBlockLoop lines position
    ((List.range (position - startPos)).map fun k => position - 1 - k)

/-- `_is_specific_hyphenated_continuation`: a dialogue line broken mid-word
two positions back, preceded by a character cue. -/
def isSpecificHyphenatedContinuation (text : Str) (position : Nat)
    (lines : List Str) : Bool :=
  if position < 2 then false
  else if containsActionIndicators text || isBasicActionLine text then false
  else
    let hp := position - 2
    if hp < lines.length then
      let hl := strip (lines.getD hp [])
      if isSuffix (strOf "-") hl && 10 < hl.length && !isBasicActionLine hl then
        if 0 < hp then
          let prevRaw := lines.getD (hp - 1) []
          isCharacterNameC (strip prevRaw) (leadingWsCount prevRaw) (hp - 1) lines
        else false
      else false
    else false

/-! ### `classify_line` -/

/-- The parenthetical shape test of rule 7: starts with `(` and ends with `)`. -/
def parenShape (t : Str) : Bool :=
  isPrefix (strOf "(") t && isSuffix (strOf ")") t

/-- The fall-through tail of `classify_line` (source lines 105–110): emit
`action`, resetting the dialogue block only for clearly-action or
scene-element text. -/
def classifyDefault (st : CState) (trimmed : Str) : Element × CState :=
  let inB :=
    if isClearlyAction st.inDialogueBlock trimmed || isSceneElement trimmed
    then false else st.inDialogueBlock
  (⟨.action, trimmed, 12⟩, ⟨some .action, inB⟩)

/-- `ElementClassifier.classify_line`, as a pure function from the mutable
state and the line (with its position and the page's raw line list) to the
emitted element and the successor state. -/
def classifyLine (st : CState) (line : Str) (position : Nat)
    (lines : List Str) : Element × CState :=
  let trimmed := strip line
  let leadingSpaces := leadingWsCount line
  -- 0. priority CHARACTER (CONT'D) patterns
  if r0Priority trimmed then
    (⟨.character, trimmed, 38⟩, ⟨some .character, true⟩)
  -- 1. targeted hyphenated dialogue continuation
  else if !trimmed.isEmpty && isSpecificHyphenatedContinuation trimmed position lines then
    (⟨.dialogue, trimmed, 25⟩, ⟨some .dialogue, true⟩)
  -- 2. pre-scene elements
  else if isPreSceneElement trimmed then
    (⟨.pre_scene, trimmed, 0⟩, ⟨some .pre_scene, false⟩)
  -- 3. scene headings
  else if isSceneHeading trimmed then
    (⟨.scene_heading, trimmed, 12⟩, ⟨some .scene_heading, false⟩)
  -- 4. transitions
  else if isTransition trimmed then
    (⟨.transition, trimmed, 55⟩, ⟨some .transition, false⟩)
  -- 5. character names (with position check)
  else if isCharacterNameC trimmed leadingSpaces position lines then
    (⟨.character, trimmed, 38⟩, ⟨some .character, true⟩)
  -- 5'. parentheticals
  else if st.inDialogueBlock && parenShape trimmed then
    (⟨.parenthetical, trimmed, 30⟩, ⟨some .parenthetical, st.inDialogueBlock⟩)
  -- 6. dialogue (follows character, parenthetical or dialogue)
  else if st.inDialogueBlock &&
      (st.last == some .character || st.last == some .parenthetical ||
       st.last == some .dialogue) then
    if containsActionIndicators trimmed || isClearlyAction st.inDialogueBlock trimmed then
      (⟨.action, trimmed, 12⟩, ⟨some .action, false⟩)
    else if !trimmed.isEmpty && !isSceneElement trimmed &&
        isLikelyDialogue st.last trimmed leadingSpaces position lines then
      (⟨.dialogue, trimmed, 25⟩, ⟨some .dialogue, st.inDialogueBlock⟩)
    else if (st.last == some .character || st.last == some .dialogue) &&
        !trimmed.isEmpty then
      if containsActionIndicators trimmed || isBasicActionLine trimmed then
        (⟨.action, trimmed, 12⟩, ⟨some .action, false⟩)
      else if 0 < position && isInContdDialogueBlock position lines then
        (⟨.dialogue, trimmed, 25⟩, ⟨some .dialogue, st.inDialogueBlock⟩)
      else if 18 ≤ leadingSpaces && leadingSpaces ≤ 35 then
        (⟨.dialogue, trimmed, 25⟩, ⟨some .dialogue, st.inDialogueBlock⟩)
      else
        (⟨.action, trimmed, 12⟩, ⟨some .action, false⟩)
    else classifyDefault st trimmed
  -- 7. default: action / description
  else classifyDefault st trimmed

/-! ### Artifact Repair (`_clean_extraction_artifacts`)

Each `re.sub` of the pipeline is rendered as a scanner that, at every
position, attempts the pattern (leftmost match), replaces on success and
moves one character on failure — exactly the `re.sub` traversal.  The
run-sequence patterns (`H+A+N+A+H+` and friends) have pairwise-disjoint
adjacent character classes once equal neighbours are merged, so greedy
maximal runs are the unique viable parse and no backtracking is needed; the
back-reference patterns (`([A-Z])\1{2,}…`) are matched with the engine's
descending-greedy search order made explicit. -/

/-- A regex fragment `[cls]{lo,hi}` (with `hi = none` for `{lo,}`). -/
structure RunItem where
  cls : Char → Bool
  lo : Nat
  hi : Option Nat

/-- Greedy match of a run-sequence pattern at the head of `s`, returning the
consumed length.  Sound for the patterns in this file because adjacent
classes are disjoint. -/
def matchRunsLen : List RunItem → Str → Option Nat
  | [], _ => some 0
  | it :: rest, s =>
    let run := (s.takeWhile it.cls).length
    let take := match it.hi with | none => run | some h => min run h
    if take < it.lo then none
    else (matchRunsLen rest (s.drop take)).map (· + take)

/-- The `re.sub` scan: at each position try `m`; on success emit the
replacement and resume after the consumed span, else keep one character.
`fuel` is the string length (the scan advances at least one character per
step). -/
def substScan (m : Str → Option (Nat × Str)) : Nat → Str → Str
  | _, [] => []
  | 0, s => s
  | fuel + 1, c :: rest =>
    match m (c :: rest) with
    | some (n, rep) =>
      if n == 0 then c :: substScan m fuel rest
      else rep ++ substScan m fuel ((c :: rest).drop n)
    | none => c :: substScan m fuel rest

/-- The `re.sub` scan for MULTILINE patterns anchored at `^`: the matcher
also receives whether the position is a line start. -/
def substScanML (m : Bool → Str → Option (Nat × Str)) : Nat → Bool → Str → Str
  | _, _, [] => []
  | 0, _, s => s
  | fuel + 1, ls, c :: rest =>
    match m ls (c :: rest) with
    | some (n, rep) =>
      if n == 0 then c :: substScanML m fuel (c == '\n') rest
      else
        rep ++ substScanML m fuel (((c :: rest).take n).getLast? == some '\n')
          ((c :: rest).drop n)
    | none => c :: substScanML m fuel (c == '\n') rest

/-- `X+` for the letter `c`, case-insensitively. -/
def plusCI (c : Char) : RunItem := ⟨fun x => x.toLower == c, 1, none⟩

/-- `X+X+` merged to `X{2,}`, case-insensitively. -/
def plus2CI (c : Char) : RunItem := ⟨fun x => x.toLower == c, 2, none⟩

/-- A single literal letter, case-insensitively. -/
def oneCI (c : Char) : RunItem := ⟨fun x => x.toLower == c, 1, some 1⟩

/-- `[-\s]*`. -/
def sepStar : RunItem := ⟨fun x => x == '-' || isWsChar x, 0, none⟩

/-- `[\'\"]` repeated. -/
def quoteRun (lo : Nat) (hi : Option Nat) : RunItem :=
  ⟨fun x => x == '\'' || x == '"', lo, hi⟩

/-- The `character_fixes` dictionary, in insertion order. -/
def characterFixes : List (List RunItem × Str) :=
  [([plusCI 'h', plusCI 'a', plusCI 'n', plusCI 'a', plusCI 'h'], strOf "HANNAH"),
   ([plusCI 'd', plus2CI 'e', sepStar, plusCI 'f', plusCI 'i', sepStar,
     plusCI 'd', plusCI 'o', plusCI 'm'], strOf "DE-FI DOM"),
   ([plusCI 'd', plusCI 'e', sepStar, plusCI 'f', plusCI 'i', sepStar,
     plusCI 'd', plusCI 'o', plusCI 'm'], strOf "DE-FI DOM"),
   ([plusCI 'p', plusCI 'a', plusCI 't', plusCI 'r', plusCI 'i', plusCI 'c',
     plusCI 'k'], strOf "PATRICK"),
   ([plusCI 'p', plusCI 'a', plusCI 't', plusCI 'r', plusCI 'i', plusCI 'c',
     ⟨fun x => x.toLower == 'r' || x.toLower == 'k', 1, none⟩], strOf "PATRICK"),
   ([plusCI 'r', plusCI 'o', plusCI 'g', plusCI 'e', plusCI 'r'], strOf "ROGER"),
   ([plusCI 'b', plusCI 'o', plusCI 'u', plusCI 'n', plusCI 'c', plusCI 'e',
     plusCI 'r'], strOf "BOUNCER"),
   ([plusCI 'k', plusCI 'e', plusCI 'v', plusCI 'i', plusCI 'n'], strOf "KEVIN"),
   ([plusCI 'b', plusCI 'r', plusCI 'i', plusCI 'a', plusCI 'n'], strOf "BRIAN"),
   ([plusCI 's', plusCI 'a', plusCI 'm'], strOf "SAM")]

def applyRunFix (s : Str) (fix : List RunItem × Str) : Str :=
  substScan (fun t => (matchRunsLen fix.1 t).map (fun n => (n, fix.2))) s.length s

/-- The leading same-character run when the head is `[A-Z]`, else 0. -/
def sameRunAt (s : Str) : Nat :=
  match s with
  | c :: _ => if isUC c then (s.takeWhile (· == c)).length else 0
  | [] => 0

/-- `[hi, hi-1, …, lo]` (empty when `hi < lo`): the engine's greedy
backtracking order for `{lo-1,}` repetitions of a back-referenced group. -/
def descRange (hi lo : Nat) : List Nat :=
  (List.range (hi + 1 - lo)).map fun k => hi - k

/-- First-occurrence-preserving de-duplication: the `fix_repeated_chars`
replacement function. -/
def uniqueCharsAux (seen : Str) : Str → Str
  | [] => []
  | c :: rest =>
    if seen.contains c then uniqueCharsAux seen rest
    else c :: uniqueCharsAux (seen ++ [c]) rest

def uniqueChars (s : Str) : Str := uniqueCharsAux [] s

/-- `([A-Z])\1{2,}([A-Z])\2{2,}([A-Z])\3{2,}` at the head of `s`. -/
def matchTriple (s : Str) : Option Nat :=
  (descRange (sameRunAt s) 3).findSome? fun n1 =>
    let s2 := s.drop n1
    (descRange (sameRunAt s2) 3).findSome? fun n2 =>
      let s3 := s2.drop n2
      (descRange (sameRunAt s3) 3).findSome? fun n3 => some (n1 + n2 + n3)

/-- `([A-Z])\1{2,}([A-Z])\2{2,}` at the head of `s`. -/
def matchDouble (s : Str) : Option Nat :=
  (descRange (sameRunAt s) 3).findSome? fun n1 =>
    let s2 := s.drop n1
    (descRange (sameRunAt s2) 3).findSome? fun n2 => some (n1 + n2)

def tripleFixM (s : Str) : Option (Nat × Str) :=
  (matchTriple s).map fun n => (n, uniqueChars (s.take n))

def doubleFixM (s : Str) : Option (Nat × Str) :=
  (matchDouble s).map fun n => (n, uniqueChars (s.take n))

/-- `([A-Z])\1{3,}` → `\1`: a same-character run of length ≥ 4 collapses. -/
def quadFixM (s : Str) : Option (Nat × Str) :=
  let r := sameRunAt s
  if 4 ≤ r then some (r, s.take 1) else none

/-- `C+O+N+T+[\'\"]*D+` (IGNORECASE) → `CONT'D`. -/
def contdFix1 : List RunItem :=
  [plusCI 'c', plusCI 'o', plusCI 'n', plusCI 't', quoteRun 0 none, plusCI 'd']

/-- `CONT[\'\"]{2,}DD?` (IGNORECASE) → `CONT'D`. -/
def contdFix2 : List RunItem :=
  [oneCI 'c', oneCI 'o', oneCI 'n', oneCI 't', quoteRun 2 none,
   ⟨fun x => x.toLower == 'd', 1, some 2⟩]

/-- `CONT[\'\"]*DD` (IGNORECASE) → `CONT'D`. -/
def contdFix3 : List RunItem :=
  [oneCI 'c', oneCI 'o', oneCI 'n', oneCI 't', quoteRun 0 none,
   ⟨fun x => x.toLower == 'd', 2, some 2⟩]

/-- `\(\(([^)]+)\)\)` → `(\1)`. -/
def parenFixM (s : Str) : Option (Nat × Str) :=
  match s with
  | '(' :: '(' :: inner =>
    let r := (inner.takeWhile (· != ')')).length
    if 1 ≤ r && charAt inner r == some ')' && charAt inner (r + 1) == some ')' then
      some (4 + r, '(' :: (inner.take r ++ [')']))
    else none
  | _ => none

/-- `''` → `'`. -/
def quoteFixM (s : Str) : Option (Nat × Str) :=
  if isPrefix (strOf "''") s then some (2, strOf "'") else none

/-- `([A-Z]+)\s*\(\(([A-Z\s\']+)\)\)` → `\1 (\2)`. -/
def nameExtFixM (s : Str) : Option (Nat × Str) :=
  let g1 := ucRunLen s
  if 1 ≤ g1 then
    let r1 := s.drop g1
    let w := wsRunLen r1
    let r2 := r1.drop w
    if isPrefix (strOf "((") r2 then
      let inner := r2.drop 2
      let g2 := (inner.takeWhile
          (fun x => isUC x || isWsChar x || x == '\'')).length
      if 1 ≤ g2 && isPrefix (strOf "))") (inner.drop g2) then
        some (g1 + w + 2 + g2 + 2,
          s.take g1 ++ strOf " (" ++ inner.take g2 ++ strOf ")")
      else none
    else none
  else none

/-- `$` in MULTILINE mode: end of string or just before a newline. -/
def endOrNL (s : Str) : Bool := s.isEmpty || s.head? == some '\n'

/-- `^\d{1,4}\.{0,2}$` (MULTILINE) → deleted. -/
def pgA (ls : Bool) (s : Str) : Option (Nat × Str) :=
  if !ls then none
  else
    let d := digitRunLen s
    if 1 ≤ d && d ≤ 4 then
      let r := s.drop d
      let dots := (r.takeWhile (· == '.')).length
      if dots ≤ 2 && endOrNL (r.drop dots) then some (d + dots, []) else none
    else none

/-- `^\d{1,4}\s*$` (MULTILINE) → deleted.  The greedy `\s*` backtracks to the
right-most position inside the whitespace run where `$` holds. -/
def pgB (ls : Bool) (s : Str) : Option (Nat × Str) :=
  if !ls then none
  else
    let d := digitRunLen s
    if 1 ≤ d && d ≤ 4 then
      let r := s.drop d
      let w := wsRunLen r
      (descRange w 0).findSome? fun k =>
        if (r.drop k).isEmpty || charAt r k == some '\n' then some (d + k, ([] : Str))
        else none
    else none

/-- `^Page\s+\d+` (MULTILINE | IGNORECASE) → deleted. -/
def pgC (ls : Bool) (s : Str) : Option (Nat × Str) :=
  if !ls then none
  else if isPrefixCI (strOf "page") s then
    let r := s.drop 4
    let w := wsRunLen r
    let d := digitRunLen (r.drop w)
    if 1 ≤ w && 1 ≤ d then some (4 + w + d, []) else none
  else none

/-- `^\d{1,4}/\d{1,4}$` (MULTILINE) → deleted. -/
def pgD (ls : Bool) (s : Str) : Option (Nat × Str) :=
  if !ls then none
  else
    let d1 := digitRunLen s
    if 1 ≤ d1 && d1 ≤ 4 then
      let r := s.drop d1
      match r with
      | '/' :: r2 =>
        let d2 := digitRunLen r2
        if 1 ≤ d2 && d2 ≤ 4 && endOrNL (r2.drop d2) then
          some (d1 + 1 + d2, [])
        else none
      | _ => none
    else none

/-- `^-\s*\d+\s*-$` (MULTILINE) → deleted. -/
def pgE (ls : Bool) (s : Str) : Option (Nat × Str) :=
  if !ls then none
  else
    match s with
    | '-' :: r =>
      let w1 := wsRunLen r
      let r2 := r.drop w1
      let d := digitRunLen r2
      if 1 ≤ d then
        let r3 := r2.drop d
        let w2 := wsRunLen r3
        match r3.drop w2 with
        | '-' :: r4 => if endOrNL r4 then some (1 + w1 + d + w2 + 1, []) else none
        | _ => none
      else none
    | _ => none

/-- `^\(\d+\)$` (MULTILINE) → deleted. -/
def pgF (ls : Bool) (s : Str) : Option (Nat × Str) :=
  if !ls then none
  else
    match s with
    | '(' :: r =>
      let d := digitRunLen r
      if 1 ≤ d then
        match r.drop d with
        | ')' :: r2 => if endOrNL r2 then some (1 + d + 1, []) else none
        | _ => none
      else none
    | _ => none

/-- `\n{4,}` → `\n\n\n`. -/
def nlCollapseM (s : Str) : Option (Nat × Str) :=
  let n := (s.takeWhile (· == '\n')).length
  if 4 ≤ n then some (n, strOf "\n\n\n") else none

def runSubst (m : Str → Option (Nat × Str)) (s : Str) : Str :=
  substScan m s.length s

def runSubstML (m : Bool → Str → Option (Nat × Str)) (s : Str) : Str :=
  substScanML m s.length true s

/-- `ScreenplayParser._clean_extraction_artifacts`: the full Artifact Repair
pipeline in source order. -/
def clean (text : Str) : Str :=
  if text.isEmpty then text
  else
    let t := characterFixes.foldl applyRunFix text
    let t := runSubst tripleFixM t
    let t := runSubst doubleFixM t
    let t := runSubst quadFixM t
    let t := runSubst (fun s => (matchRunsLen contdFix1 s).map (fun n => (n, strOf "CONT'D"))) t
    let t := runSubst (fun s => (matchRunsLen contdFix2 s).map (fun n => (n, strOf "CONT'D"))) t
    let t := runSubst (fun s => (matchRunsLen contdFix3 s).map (fun n => (n, strOf "CONT'D"))) t
    let t := runSubst parenFixM t
    let t := runSubst quoteFixM t
    let t := runSubst nameExtFixM t
    let t := runSubstML pgA t
    let t := runSubstML pgB t
    let t := runSubstML pgC t
    let t := runSubstML pgD t
    let t := runSubstML pgE t
    let t := runSubstML pgF t
    let t := runSubst nlCollapseM t
    t

/-! ### Scene assembly (`_parse_sequential_content`, `format_screenplay_content`) -/

/-- `ScreenplayParser._is_page_number`: the six page-number templates,
`re.match` with IGNORECASE against the stripped line. -/
def isPageNumber (line : Str) : Bool :=
  let s := strip line
  if s.isEmpty then false
  else
    (let d := digitRunLen s
     1 ≤ d && d ≤ 4 &&
     (let r := s.drop d
      let dots := (r.takeWhile (· == '.')).length
      dots ≤ 2 && (r.drop dots).isEmpty)) ||
    (let d := digitRunLen s
     1 ≤ d && d ≤ 4 && (s.drop d).all isWsChar) ||
    (isPrefixCI (strOf "page") s &&
     (let r := s.drop 4
      1 ≤ wsRunLen r && 1 ≤ digitRunLen (r.drop (wsRunLen r)))) ||
    (let d1 := digitRunLen s
     1 ≤ d1 && d1 ≤ 4 &&
     (match s.drop d1 with
      | '/' :: r2 =>
        let d2 := digitRunLen r2
        1 ≤ d2 && d2 ≤ 4 && (r2.drop d2).isEmpty
      | _ => false)) ||
    (match s with
     | '-' :: r =>
       let w1 := wsRunLen r
       let r2 := r.drop w1
       let d := digitRunLen r2
       1 ≤ d &&
       (let r3 := r2.drop d
        r3.drop (wsRunLen r3) == strOf "-")
     | _ => false) ||
    (match s with
     | '(' :: r =>
       let d := digitRunLen r
       1 ≤ d && r.drop d == strOf ")"
     | _ => false)

def spaces (n : Nat) : Str := List.replicate n ' '

/-- The `SCENE_ELEMENTS` prefixes of `format_screenplay_content`, each with
trailing colons stripped (`se.rstrip(':')`). -/
def sceneElementsFmt : List Str :=
  ["WORK DESK", "CLOTHING RACK", "WALL MIRROR", "DANCE FLOOR",
   "ANGLE ON", "CLOSE ON", "INSERT", "BACK TO SCENE",
   "PHONE CAM POV", "END PHONE CAM POV", "PRE-LAP", "PRELAP",
   "ANGLE ON", "CLOSE ON", "INSERT", "TIGHT ON", "WIDE ON"].map strOf

/-- `_needs_spacing`: the fixed element-transition spacing table. -/
def needsSpacing (lastT curT : ElemType) : Bool :=
  match lastT, curT with
  | .action, .character => true
  | .dialogue, .character => true
  | .parenthetical, .character => true
  | .transition, .character => true
  | .dialogue, .action => true
  | .character, .action => true
  | .parenthetical, .action => true
  | .transition, .action => true
  | .action, .scene_heading => true
  | .dialogue, .scene_heading => true
  | .character, .scene_heading => true
  | .parenthetical, .scene_heading => true
  | .transition, .scene_heading => true
  | .pre_scene, .scene_heading => true
  | .action, .transition => true
  | .dialogue, .transition => true
  | .character, .transition => true
  | .parenthetical, .transition => true
  | .action, .pre_scene => true
  | .dialogue, .pre_scene => true
  | .character, .pre_scene => true
  | _, _ => false

def paraNames : List Str :=
  ["hannah", "de-fi dom", "patrick", "roger", "kevin", "brian", "sam"].map strOf

def paraSceneElems : List Str :=
  ["work desk", "clothing rack", "wall mirror", "phone cam pov",
   "angle on", "close on"].map strOf

/-- `_is_new_action_paragraph` (its `elements`/`current_index` parameters are
unused in the source body). -/
def isNewActionParagraph (lastAction current : Str) : Bool :=
  let ll := lowerStr lastAction
  let cl := lowerStr current
  let lastChar := paraNames.find? (fun n => isPrefix n ll)
  let curChar := paraNames.find? (fun n => isPrefix n cl)
  (lastChar.isSome && curChar.isSome && !(lastChar == curChar)) ||
  (paraSceneElems.any (fun x => isSub x ll) &&
   paraSceneElems.any (fun x => isSub x cl)) ||
  (isSuffix (strOf ".") (strip lastAction) && !(strip current).isEmpty &&
   (match (strip current).head? with | some c => c.isUpper | none => false) &&
   (["the ", "a ", "an ", "buzzing", "hannah", "de-fi", "patrick"].map strOf).any
     (fun w => isPrefix w cl)) ||
  ((["later", "moments later", "meanwhile", "suddenly", "then", "now"].map strOf).any
     (fun w => isSub w cl))

/-- Whitespace-splitting into words (Python `str.split()`), reversed-accumulator scan. -/
def splitWordsAux (cur : Str) : Str → List Str
  | [] => if cur.isEmpty then [] else [cur.reverse]
  | c :: rest =>
    if isWsChar c then
      if cur.isEmpty then splitWordsAux [] rest
      else cur.reverse :: splitWordsAux [] rest
    else splitWordsAux (c :: cur) rest

def splitWords (s : Str) : List Str := splitWordsAux [] s

def wrapGreedyAux (width : Nat) (cur : Str) : List Str → List Str
  | [] => [cur]
  | w :: rest =>
    if cur.length + 1 + w.length ≤ width then
      wrapGreedyAux width (cur ++ ' ' :: w) rest
    else cur :: wrapGreedyAux width w rest

/-- `_wrap_text` = `textwrap.wrap(text, width, break_long_words=False)`,
modelled as greedy word-filling over whitespace-split words (exact for
single-space-separated text without break-on-hyphen chunking; no theorem
below depends on dialogue wrapping). -/
def wrapText (text : Str) (width : Nat) : List Str :=
  match splitWords text with
  | [] => []
  | w :: rest => wrapGreedyAux width w rest

/-- One step of the `format_screenplay_content` loop.  The state is
`(last_type, last_action_text, formatted_lines)`. -/
def fmtStep (st : Option ElemType × Option Str × List Str) (e : Element) :
    Option ElemType × Option Str × List Str :=
  let (lastType, lastAction, acc0) := st
  let text := strip e.text
  let indent := e.indent
  let isSceneEl := sceneElementsFmt.any fun se => isPrefix se (upperStr text)
  let acc1 :=
    if isSceneEl && lastType.isSome && !(lastType == some .scene_heading)
    then acc0 ++ [[]] else acc0
  let acc2 :=
    if (match lastType with | some lt => needsSpacing lt e.type | none => false)
    then acc1 ++ [[]] else acc1
  let acc3 :=
    if e.type == .action && lastType == some .action && lastAction.isSome &&
        !isSceneEl then
      if isNewActionParagraph (lastAction.getD []) text then acc2 ++ [[]] else acc2
    else acc2
  match e.type with
  | .pre_scene =>
    (some e.type, lastAction,
     acc3 ++ [strOf "            " ++ text] ++ (if !text.isEmpty then [[]] else []))
  | .scene_heading =>
    (some e.type, lastAction, acc3 ++ [spaces indent ++ upperStr text, []])
  | .action =>
    if !text.isEmpty then
      (some e.type, some text,
       acc3 ++ [spaces indent ++ text] ++ (if isSceneEl then [[]] else []))
    else (some e.type, lastAction, acc3)
  | .character =>
    (some e.type, lastAction,
     (if lastType == some .action then acc3 ++ [[]] else acc3) ++
       [spaces indent ++ upperStr text])
  | .dialogue =>
    (some e.type, lastAction,
     acc3 ++ (wrapText text 35).map (fun l => spaces indent ++ l))
  | .parenthetical =>
    (some e.type, lastAction, acc3 ++ [spaces indent ++ text])
  | .transition =>
    (some e.type, lastAction,
     acc3 ++ [spaces (72 - text.length) ++ upperStr text, []])

/-- Join lines with newlines (Python `'\n'.join`). -/
def joinNL : List Str → Str
  | [] => []
  | [l] => l
  | l :: rest => l ++ '\n' :: joinNL rest

/-- `ScreenplayParser.format_screenplay_content`. -/
def formatScreenplayContent (elements : List Element) : Str :=
  let fin := elements.foldl fmtStep (none, none, [])
  runSubst nlCollapseM (joinNL fin.2.2)

/-- A Scene record.  `content` is the formatted text stored by the source;
`elems` and `headingSrc` additionally retain the element list the content
was formatted from and the raw heading text, so that the stream-partition
property can be stated. -/
structure Scene where
  heading : Str
  content : Str
  elems : List Element
  headingSrc : Option Str
  characters : List Str
  pageStart : Nat
  pageEnd : Nat
deriving DecidableEq, Repr

/-- The accumulator of `_parse_sequential_content`.  `emitted` is a ghost
trace of every element returned by the classifier, in order. -/
structure PState where
  scenes : List Scene
  curHeading : Option Str
  curElems : List Element
  sceneChars : List Str
  curPage : Nat
  cstate : CState
  emitted : List Element
deriving DecidableEq, Repr

def initPState : PState := ⟨[], none, [], [], 1, initCState, []⟩

/-- `f"            {current_scene_heading.upper()}"` (empty for a missing heading). -/
def renderHeading : Option Str → Str
  | some h => strOf "            " ++ upperStr h
  | none => []

/-- Close the current scene if it has a heading or contents. -/
def pushScene (ps : PState) (pageEnd : Nat) : PState :=
  if ps.curHeading.isSome || !ps.curElems.isEmpty then
    { ps with scenes := ps.scenes ++
        [{ heading := renderHeading ps.curHeading,
           content := formatScreenplayContent ps.curElems,
           elems := ps.curElems,
           headingSrc := ps.curHeading,
           characters := ps.sceneChars,
           pageStart := ps.curPage,
           pageEnd := pageEnd }] }
  else ps

/-- Set-style insertion for the per-scene character collection. -/
def addChar (nm : Str) (chars : List Str) : List Str :=
  if chars.contains nm then chars else chars ++ [nm]

/-- One line of `_parse_sequential_content`: skip blank lines and page
numbers, clean, classify, then route by element type. -/
def processLine (ps : PState) (pn : Nat) (lines : List Str) (i : Nat)
    (raw : Str) : PState :=
  if (strip raw).isEmpty then ps
  else if isPageNumber raw then ps
  else
    let cl := clean raw
    if (strip cl).isEmpty then ps
    else
      let ec := classifyLine ps.cstate cl i lines
      let e := ec.1
      let ps1 := { ps with cstate := ec.2, emitted := ps.emitted ++ [e] }
      match e.type with
      | .scene_heading =>
        let ps2 := pushScene ps1 (if 1 < pn then pn - 1 else 1)
        { ps2 with curHeading := some e.text, curPage := pn,
                   curElems := [], sceneChars := [] }
      | .character =>
        let nm := strip (stripParens e.text.length e.text)
        let chars :=
          if !nm.isEmpty && 2 ≤ nm.length && nm.length ≤ 35 then
            addChar nm ps.sceneChars
          else ps.sceneChars
        { ps1 with sceneChars := chars, curElems := ps.curElems ++ [e] }
      | _ => { ps1 with curElems := ps.curElems ++ [e] }

/-- All lines of one page, with their 0-based positions. -/
def processPage (ps : PState) (page : Nat × List Str) : PState :=
  (page.2.enum).foldl (fun a il => processLine a page.1 page.2 il.1 il.2) ps

/-- `ScreenplayParser._parse_sequential_content`, over pages given as
`(page_num, lines)` pairs. -/
def parseSeq (pages : List (Nat × List Str)) : List Scene :=
  let ps := pages.foldl processPage initPState
  let lastPage := match pages.getLast? with | some p => p.1 | none => 1
  (pushScene ps lastPage).scenes

/-- A character cue at the canonical 38-space indentation. -/
def johnCueLine : Str := List.replicate 38 ' ' ++ strOf "JOHN"

/-- The problem line of the celebrity-action regression test, at dialogue
indentation. -/
def danLine : Str :=
  List.replicate 25 ' ' ++ strOf "Dan Bilzerian jet skis across the water."

/-- A no-signal line at dialogue indentation (20 leading spaces). -/
def zzzLine : Str := List.replicate 20 ' ' ++ strOf "zzz qqq"

/-- A conversational one-word line at dialogue indentation. -/
def okayLine : Str := List.replicate 25 ' ' ++ strOf "Okay."

/-- The three-apostrophe witness string for the idempotence failure. -/
def tripleQuote : Str := strOf "'''"

/-- The spec's in-block dialogue line, at dialogue indentation. -/
def iLine : Str :=
  List.replicate 25 ' ' ++ strOf "I can't believe this is happening."

/-- The amended scene-heading predicate, written from the corrected claim's
words: stripped length 10–100, and the UPPER-CASED stripped text starts
with a scene-opening template or contains a time-of-day marker. -/
def sceneHeadingSpecCI (line : Str) : Bool :=
  let u := upperStr (strip line)
  (10 ≤ (strip line).length && (strip line).length ≤ 100) &&
  (["INT.", "EXT.", "EST.", "INT/EXT.", "INTERIOR", "EXTERIOR"].any
      (fun p => isPrefix (strOf p) u) ||
   ["- DAY", "- NIGHT", "- DAWN", "- DUSK", "- MORNING", "- AFTERNOON",
    "- EVENING", "- LATER", "- CONTINUOUS"].any
      (fun p => isSub (strOf p) u))

/-- A lower-case scene heading. -/
def lcHeading : Str := strOf "int. kitchen - day"

/-- The spec's page-number scenario document: a bare 3-character page-number
line `42.` between a heading and an action line. -/
def sign42Doc : List (Nat × List Str) :=
  [(1, [strOf "INT. KITCHEN - DAY", strOf "42.", strOf "John opens the fridge."])]

/-- The spec's kitchen scenario document, without the page-number line. -/
def kitchenDoc : List (Nat × List Str) :=
  [(1, [strOf "INT. KITCHEN - DAY", strOf "John opens the fridge."])]

def nonHeadingElems (l : List Element) : List Element :=
  l.filter fun e => !(e.type == ElemType.scene_heading)

def sceneHeadTexts (l : List Element) : List Str :=
  (l.filter fun e => e.type == ElemType.scene_heading).map Element.text

def scenesElems (scs : List Scene) : List Element := (scs.map Scene.elems).flatten

def parseInv (ps : PState) : Prop :=
  scenesElems ps.scenes ++ ps.curElems = nonHeadingElems ps.emitted ∧
  ps.scenes.filterMap Scene.headingSrc ++ ps.curHeading.toList =
    sceneHeadTexts ps.emitted ∧
  ∀ sc ∈ ps.scenes, sc.content = formatScreenplayContent sc.elems ∧
    sc.heading = renderHeading sc.headingSrc

def docEmitted (pages : List (Nat × List Str)) : List Element :=
  (pages.foldl processPage initPState).emitted

/-! ## Theorems settling the claims -/

/-- C10: after every call to `classify_line`, the state's `last_element`
equals the type of the element returned by that call; every control-flow
branch of the classifier, on every input, keeps this synchronisation. -/
theorem claim_C10_last_element_sync (st : CState) (line : Str) (position : Nat)
    (lines : List Str) :
    (classifyLine st line position lines).2.last =
      some (classifyLine st line position lines).1.type := by
  unfold classifyLine classifyDefault
  dsimp only
  by_cases h1 : r0Priority (strip line) = true
  · rw [if_pos h1]
  rw [if_neg h1]
  by_cases h2 : (!List.isEmpty (strip line) &&
      isSpecificHyphenatedContinuation (strip line) position lines) = true
  · rw [if_pos h2]
  rw [if_neg h2]
  by_cases h3 : isPreSceneElement (strip line) = true
  · rw [if_pos h3]
  rw [if_neg h3]
  by_cases h4 : isSceneHeading (strip line) = true
  · rw [if_pos h4]
  rw [if_neg h4]
  by_cases h5 : isTransition (strip line) = true
  · rw [if_pos h5]
  rw [if_neg h5]
  by_cases h6 : isCharacterNameC (strip line) (leadingWsCount line) position lines = true
  · rw [if_pos h6]
  rw [if_neg h6]
  by_cases h7 : (st.inDialogueBlock && parenShape (strip line)) = true
  · rw [if_pos h7]
  rw [if_neg h7]
  by_cases h8 : (st.inDialogueBlock &&
      (st.last == some ElemType.character || st.last == some ElemType.parenthetical ||
       st.last == some ElemType.dialogue)) = true
  case neg => rw [if_neg h8]
  rw [if_pos h8]
  by_cases h9 : (containsActionIndicators (strip line) ||
      isClearlyAction st.inDialogueBlock (strip line)) = true
  · rw [if_pos h9]
  rw [if_neg h9]
  by_cases h10 : (!List.isEmpty (strip line) && !isSceneElement (strip line) &&
      isLikelyDialogue st.last (strip line) (leadingWsCount line) position lines) = true
  · rw [if_pos h10]
  rw [if_neg h10]
  by_cases h11 : ((st.last == some ElemType.character || st.last == some ElemType.dialogue) &&
      !List.isEmpty (strip line)) = true
  case neg => rw [if_neg h11]
  rw [if_pos h11]
  by_cases h12 : (containsActionIndicators (strip line) || isBasicActionLine (strip line)) = true
  · rw [if_pos h12]
  rw [if_neg h12]
  by_cases h13 : (decide (0 < position) && isInContdDialogueBlock position lines) = true
  · rw [if_pos h13]
  rw [if_neg h13]
  by_cases h14 : (decide (18 ≤ leadingWsCount line) && decide (leadingWsCount line ≤ 35)) = true
  · rw [if_pos h14]
  rw [if_neg h14]

/-- C9: the classifier is total: for every input string, position, line list
and state, `classify_line` returns a concrete element whose type is one of
the seven element types (totality itself is witnessed by `classifyLine`
being a total Lean function; exceptions have no counterpart here because no
partial operation occurs in the translated body). -/
theorem claim_C9_classifier_total (st : CState) (line : Str) (position : Nat)
    (lines : List Str) :
    ∃ e st', classifyLine st line position lines = (e, st') ∧
      (e.type = ElemType.scene_heading ∨ e.type = ElemType.character ∨
       e.type = ElemType.dialogue ∨ e.type = ElemType.parenthetical ∨
       e.type = ElemType.transition ∨ e.type = ElemType.pre_scene ∨
       e.type = ElemType.action) := by
  refine ⟨(classifyLine st line position lines).1,
    (classifyLine st line position lines).2, rfl, ?_⟩
  cases (classifyLine st line position lines).1.type <;> simp

/-- C3: whenever `classify_line` emits an element of type `character`, the
post-state has `in_dialogue_block = true`. -/
theorem claim_C3_character_sets_dialogue_block (st : CState) (line : Str)
    (position : Nat) (lines : List Str)
    (h : (classifyLine st line position lines).1.type = ElemType.character) :
    (classifyLine st line position lines).2.inDialogueBlock = true := by
  unfold classifyLine classifyDefault at h ⊢
  dsimp only at h ⊢
  by_cases h1 : r0Priority (strip line) = true
  · rw [if_pos h1]
  rw [if_neg h1] at h ⊢
  by_cases h2 : (!List.isEmpty (strip line) &&
      isSpecificHyphenatedContinuation (strip line) position lines) = true
  · rw [if_pos h2] at h; simp at h
  rw [if_neg h2] at h ⊢
  by_cases h3 : isPreSceneElement (strip line) = true
  · rw [if_pos h3] at h; simp at h
  rw [if_neg h3] at h ⊢
  by_cases h4 : isSceneHeading (strip line) = true
  · rw [if_pos h4] at h; simp at h
  rw [if_neg h4] at h ⊢
  by_cases h5 : isTransition (strip line) = true
  · rw [if_pos h5] at h; simp at h
  rw [if_neg h5] at h ⊢
  by_cases h6 : isCharacterNameC (strip line) (leadingWsCount line) position lines = true
  · rw [if_pos h6]
  rw [if_neg h6] at h ⊢
  by_cases h7 : (st.inDialogueBlock && parenShape (strip line)) = true
  · rw [if_pos h7] at h; simp at h
  rw [if_neg h7] at h ⊢
  by_cases h8 : (st.inDialogueBlock &&
      (st.last == some ElemType.character || st.last == some ElemType.parenthetical ||
       st.last == some ElemType.dialogue)) = true
  case neg => rw [if_neg h8] at h; simp at h
  rw [if_pos h8] at h ⊢
  by_cases h9 : (containsActionIndicators (strip line) ||
      isClearlyAction st.inDialogueBlock (strip line)) = true
  · rw [if_pos h9] at h; simp at h
  rw [if_neg h9] at h ⊢
  by_cases h10 : (!List.isEmpty (strip line) && !isSceneElement (strip line) &&
      isLikelyDialogue st.last (strip line) (leadingWsCount line) position lines) = true
  · rw [if_pos h10] at h; simp at h
  rw [if_neg h10] at h ⊢
  by_cases h11 : ((st.last == some ElemType.character || st.last == some ElemType.dialogue) &&
      !List.isEmpty (strip line)) = true
  case neg => rw [if_neg h11] at h; simp at h
  rw [if_pos h11] at h ⊢
  by_cases h12 : (containsActionIndicators (strip line) || isBasicActionLine (strip line)) = true
  · rw [if_pos h12] at h; simp at h
  rw [if_neg h12] at h ⊢
  by_cases h13 : (decide (0 < position) && isInContdDialogueBlock position lines) = true
  · rw [if_pos h13] at h; simp at h
  rw [if_neg h13] at h ⊢
  by_cases h14 : (decide (18 ≤ leadingWsCount line) && decide (leadingWsCount line ≤ 35)) = true
  · rw [if_pos h14] at h; simp at h
  rw [if_neg h14] at h; simp at h

/-- Witness for C3: the line `JOHN` at 38 spaces is classified `character`
from the initial state, and the post-state has `in_dialogue_block = true`. -/
theorem claim_C3_witness :
    (classifyLine initCState johnCueLine 0 []).2.inDialogueBlock = true :=
  claim_C3_character_sets_dialogue_block initCState johnCueLine 0 [] (by rfl)

/-- A basic-action match forces `_is_likely_dialogue` to reject the line
(shared helper). -/
theorem likely_false_of_basic (last : Option ElemType) (text : Str)
    (leadingSpaces position : Nat) (lines : List Str)
    (hba : isBasicActionLine text = true) :
    isLikelyDialogue last text leadingSpaces position lines = false := by
  simp [isLikelyDialogue, hba]

/-- C2: whenever the classifier, inside a dialogue block and behind the
dialogue-context guard, emits `action` through one of the two
strong-action-signal overrides (rule-8 action indicators / clearly-action,
or the continuation check's action indicators / basic-action test), the
post-state has `in_dialogue_block = false` and `last_element = action` — so
the next line is classified with `last_element == action`. -/
theorem claim_C2_override_resets_block (st : CState) (line : Str)
    (position : Nat) (lines : List Str)
    (hin : st.inDialogueBlock = true)
    (hlast : st.last = some ElemType.character ∨ st.last = some ElemType.parenthetical ∨
      st.last = some ElemType.dialogue)
    (h1 : r0Priority (strip line) = false)
    (h2 : isSpecificHyphenatedContinuation (strip line) position lines = false)
    (h3 : isPreSceneElement (strip line) = false)
    (h4 : isSceneHeading (strip line) = false)
    (h5 : isTransition (strip line) = false)
    (h6 : isCharacterNameC (strip line) (leadingWsCount line) position lines = false)
    (h7 : parenShape (strip line) = false)
    (hov : (containsActionIndicators (strip line) ||
              isClearlyAction true (strip line)) = true ∨
           ((st.last = some ElemType.character ∨ st.last = some ElemType.dialogue) ∧
            strip line ≠ [] ∧
            containsActionIndicators (strip line) = false ∧
            isClearlyAction true (strip line) = false ∧
            isBasicActionLine (strip line) = true)) :
    (classifyLine st line position lines).1.type = ElemType.action ∧
    (classifyLine st line position lines).2.inDialogueBlock = false ∧
    (classifyLine st line position lines).2.last = some ElemType.action := by
  rcases hov with hov | ⟨hl2, hne, hai, hca, hba⟩
  · rcases hlast with hl | hl | hl <;>
      simp [classifyLine, h1, h2, h3, h4, h5, h6, h7, hin, hl, hov]
  · have hlik := likely_false_of_basic st.last (strip line)
      (leadingWsCount line) position lines hba
    rcases hl2 with hl | hl <;> rw [hl] at hlik <;>
      simp [classifyLine, h1, h2, h3, h4, h5, h6, h7, hin, hl, hai, hca, hba,
        hlik, hne]

/-- Witness for C2: inside an open dialogue block after a dialogue line,
"Dan Bilzerian jet skis across the water." fires the action override and
closes the block. -/
theorem claim_C2_witness :
    (classifyLine ⟨some ElemType.dialogue, true⟩ danLine 0 [danLine]).1.type =
        ElemType.action ∧
    (classifyLine ⟨some ElemType.dialogue, true⟩ danLine 0 [danLine]).2.inDialogueBlock =
        false ∧
    (classifyLine ⟨some ElemType.dialogue, true⟩ danLine 0 [danLine]).2.last =
        some ElemType.action :=
  claim_C2_override_resets_block ⟨some ElemType.dialogue, true⟩ danLine 0 [danLine]
    (by rfl) (Or.inr (Or.inr (by rfl))) (by rfl) (by rfl) (by rfl) (by rfl)
    (by rfl) (by rfl) (by rfl) (Or.inl (by rfl))

/-- Characterisation of `_is_likely_dialogue` when neither the basic-action
nor the definitive-action override fires: the verdict is the spatial band
plus the three score thresholds (shared helper). -/
theorem likely_iff (last : Option ElemType) (text : Str) (l position : Nat)
    (lines : List Str)
    (hba : isBasicActionLine text = false)
    (hdp : containsDefinitiveActionPatterns text = false) :
    (isLikelyDialogue last text l position lines = true) ↔
      (18 ≤ l ∧ l ≤ 35 ∧ strip (lowerStr text) ≠ [] ∧
       (85 ≤ dialogueScore text ∨
        (75 ≤ dialogueScore text ∧
         (last = some ElemType.character ∨ last = some ElemType.parenthetical ∨
          last = some ElemType.dialogue)) ∨
        (60 ≤ dialogueScore text ∧ last = some ElemType.character))) := by
  unfold isLikelyDialogue
  simp only [hba, hdp, Bool.false_eq_true, if_false]
  by_cases hc : last = some ElemType.character <;>
    by_cases hp : last = some ElemType.parenthetical <;>
    by_cases hd : last = some ElemType.dialogue <;>
    split_ifs with hsp hemp hs85 hs75 hs60 <;> simp_all <;> omega

/-- C1 (amended): for a line that reaches the dialogue/action disambiguation
step inside a dialogue block and carries no strong action signal, `dialogue`
is emitted exactly when either the dialogue-likelihood test passes — the
indentation lies in the 18–35 band, the lowered text is non-blank, and the
confidence score reaches 0.85, or 0.75 with the previous element a
character/parenthetical/dialogue, or 0.60 right after a character cue — or,
failing that and with the previous element a character or dialogue, the line
sits in a CONT'D continuation block or its indentation lies in the 18–35
band (the continuation fallback the original claim omits). -/
theorem claim_C1_amended (st : CState) (line : Str) (position : Nat) (lines : List Str)
    (hin : st.inDialogueBlock = true)
    (hlast : st.last = some ElemType.character ∨ st.last = some ElemType.parenthetical ∨
      st.last = some ElemType.dialogue)
    (h1 : r0Priority (strip line) = false)
    (h2 : isSpecificHyphenatedContinuation (strip line) position lines = false)
    (h3 : isPreSceneElement (strip line) = false)
    (h4 : isSceneHeading (strip line) = false)
    (h5 : isTransition (strip line) = false)
    (h6 : isCharacterNameC (strip line) (leadingWsCount line) position lines = false)
    (h7 : parenShape (strip line) = false)
    (hne : strip line ≠ [])
    (hse : isSceneElement (strip line) = false)
    (hai : containsActionIndicators (strip line) = false)
    (hca : isClearlyAction true (strip line) = false)
    (hba : isBasicActionLine (strip line) = false)
    (hdp : containsDefinitiveActionPatterns (strip line) = false) :
    ((classifyLine st line position lines).1.type = ElemType.dialogue ↔
      ((18 ≤ leadingWsCount line ∧ leadingWsCount line ≤ 35 ∧
        strip (lowerStr (strip line)) ≠ [] ∧
        (85 ≤ dialogueScore (strip line) ∨
         (75 ≤ dialogueScore (strip line) ∧
          (st.last = some ElemType.character ∨ st.last = some ElemType.parenthetical ∨
           st.last = some ElemType.dialogue)) ∨
         (60 ≤ dialogueScore (strip line) ∧ st.last = some ElemType.character))) ∨
       ((st.last = some ElemType.character ∨ st.last = some ElemType.dialogue) ∧
        ((0 < position ∧ isInContdDialogueBlock position lines = true) ∨
         (18 ≤ leadingWsCount line ∧ leadingWsCount line ≤ 35))))) := by
  have hli := likely_iff st.last (strip line) (leadingWsCount line) position lines hba hdp
  rw [← hli]
  rcases hlast with hl | hl | hl <;> rw [hl] at hli ⊢ <;>
    by_cases hlk : isLikelyDialogue st.last (strip line) (leadingWsCount line)
        position lines = true <;>
    rw [hl] at hlk <;>
    by_cases hct : (0 < position ∧ isInContdDialogueBlock position lines = true) <;>
    by_cases hsp : (18 ≤ leadingWsCount line ∧ leadingWsCount line ≤ 35) <;>
    simp_all [classifyLine, classifyDefault, h1, h2, h3, h4, h5, h6, h7, hin,
      hai, hca, hba, hne, hse] <;>
    split_ifs <;> simp_all

/-- Counterexample to C1 as stated: inside a dialogue block, for a line with
no strong action signal of any kind and confidence score 0 — below all
three thresholds — the classifier still emits `dialogue`, through the
indentation-fallback continuation branch rather than the score. -/
theorem claim_C1_counterexample :
    (classifyLine ⟨some ElemType.dialogue, true⟩ zzzLine 0 [zzzLine]).1.type =
        ElemType.dialogue ∧
    containsActionIndicators (strip zzzLine) = false ∧
    isClearlyAction true (strip zzzLine) = false ∧
    isBasicActionLine (strip zzzLine) = false ∧
    containsDefinitiveActionPatterns (strip zzzLine) = false ∧
    dialogueScore (strip zzzLine) = 0 :=
  ⟨by rfl, by rfl, by rfl, by rfl, by rfl, by rfl⟩

/-- Witness for C1 (amended), at the line "Okay." (score 0.83) following a
character cue inside a dialogue block. -/
theorem claim_C1_witness :
    ((classifyLine ⟨some ElemType.character, true⟩ okayLine 0 [okayLine]).1.type =
        ElemType.dialogue ↔
      ((18 ≤ leadingWsCount okayLine ∧ leadingWsCount okayLine ≤ 35 ∧
        strip (lowerStr (strip okayLine)) ≠ [] ∧
        (85 ≤ dialogueScore (strip okayLine) ∨
         (75 ≤ dialogueScore (strip okayLine) ∧
          (some ElemType.character = some ElemType.character ∨
           some ElemType.character = some ElemType.parenthetical ∨
           some ElemType.character = some ElemType.dialogue)) ∨
         (60 ≤ dialogueScore (strip okayLine) ∧
          some ElemType.character = some ElemType.character))) ∨
       ((some ElemType.character = some ElemType.character ∨
         some ElemType.character = some ElemType.dialogue) ∧
        ((0 < 0 ∧ isInContdDialogueBlock 0 [okayLine] = true) ∨
         (18 ≤ leadingWsCount okayLine ∧ leadingWsCount okayLine ≤ 35))))) :=
  claim_C1_amended ⟨some ElemType.character, true⟩ okayLine 0 [okayLine]
    (by rfl) (Or.inl (by rfl)) (by rfl) (by rfl) (by rfl) (by rfl) (by rfl)
    (by rfl) (by rfl) (by decide) (by rfl) (by rfl) (by rfl) (by rfl) (by rfl)

/-- C4 (amended): Artifact Repair is total — `clean` is a total function
with a result on every input string (exceptions have no counterpart in the
translated pipeline) — but it is not idempotent: the doubled-quote
collapse `'' → '` removes one apostrophe from a run of three per pass. -/
theorem claim_C4_amended :
    (∀ x : Str, ∃ y, clean x = y) ∧
    clean tripleQuote = strOf "''" ∧ clean (strOf "''") = strOf "'" :=
  ⟨fun x => ⟨clean x, rfl⟩, by rfl, by rfl⟩

/-- Counterexample to C4 as stated: `clean` is not idempotent —
`clean(clean("'''")) ≠ clean("'''")`. -/
theorem claim_C4_counterexample :
    clean (clean tripleQuote) ≠ clean tripleQuote := by decide

/-- Counterexample to C5 as stated: with `in_dialogue_block = true` and the
previous element a character cue, the line "I can't believe this is
happening." is classified `action`, not `dialogue` as the claim asserts. -/
theorem claim_C5_counterexample :
    (classifyLine ⟨some ElemType.character, true⟩ iLine 0 [iLine]).1.type =
        ElemType.action ∧
    ¬(classifyLine ⟨some ElemType.character, true⟩ iLine 0 [iLine]).1.type =
        ElemType.dialogue :=
  ⟨by rfl, by decide⟩

/-- C5 (amended): inside an open dialogue block with the previous element a
character/dialogue, "Dan Bilzerian jet skis across the water." is
classified `action` (breaking the block) — and "I can't believe this is
happening." is ALSO classified `action`, because its progressive-continuous
pattern "is happening" alone scores 0.88, above the 0.85 action threshold,
so the strong-signal override fires instead of leaving it dialogue. -/
theorem claim_C5_amended :
    (classifyLine ⟨some ElemType.dialogue, true⟩ danLine 0 [danLine]).1.type =
        ElemType.action ∧
    (classifyLine ⟨some ElemType.dialogue, true⟩ danLine 0 [danLine]).2.inDialogueBlock =
        false ∧
    (classifyLine ⟨some ElemType.character, true⟩ iLine 0 [iLine]).1.type =
        ElemType.action ∧
    actionIndicatorScore (strip iLine) = 88 :=
  ⟨by rfl, by rfl, by rfl, by rfl⟩

/-- C6 (amended): `is_scene_heading(text)` returns true iff the stripped
text has length 10–100 and its upper-cased form starts with one of the
scene-opening templates or contains a time-of-day suffix; the original
claim's "fully upper-case" requirement is vacuous, because the source
upper-cases the line before comparing it with its own upper-case image, so
case never matters. -/
theorem claim_C6_amended (line : Str) :
    isSceneHeading line = sceneHeadingSpecCI line := by
  simp only [isSceneHeading, sceneHeadingSpecCI, upperStr, List.length_map]

/-- Counterexample to C6 as stated: a lower-case line — which the claim
says is never a scene heading — is accepted by `is_scene_heading`. -/
theorem claim_C6_counterexample :
    isSceneHeading lcHeading = true ∧ lcHeading ≠ upperStr lcHeading := by
  refine ⟨by rfl, by decide⟩

/-- C8: any input line matching a page-number form is dropped before
classification — the per-line parsing step returns its accumulator
unchanged, so no Element is produced and no state changes — and in the
spec's scenario document the dropped text "42." appears in no reconstructed
scene's content. -/
theorem claim_C8_page_numbers_dropped :
    (∀ (ps : PState) (pn : Nat) (lines : List Str) (i : Nat) (raw : Str),
      isPageNumber raw = true → processLine ps pn lines i raw = ps) ∧
    ((parseSeq sign42Doc).length = 1 ∧
     ((parseSeq sign42Doc).all fun sc => !isSub (strOf "42.") sc.content) = true) := by
  refine ⟨?_, by rfl, by rfl⟩
  intro ps pn lines i raw hpn
  unfold processLine
  rw [hpn]
  simp

/-- Witness for C8: the step on the line `42.` itself leaves the initial
parse state unchanged. -/
theorem claim_C8_witness :
    processLine initPState 1 [strOf "42."] 0 (strOf "42.") = initPState :=
  claim_C8_page_numbers_dropped.1 initPState 1 [strOf "42."] 0 (strOf "42.")
    (by rfl)

/-! ### Stream-partition invariant of the scene assembler (claim C7) -/

/-- The emitted elements that are routed into scene contents (everything but
scene headings). -/

theorem filterMap_headingSrc_single (sc : Scene) :
    List.filterMap Scene.headingSrc [sc] = sc.headingSrc.toList := by
  cases h : sc.headingSrc <;> simp [List.filterMap_cons, h]

theorem processLine_inv (ps : PState) (pn : Nat) (lines : List Str) (i : Nat)
    (raw : Str) (h : parseInv ps) : parseInv (processLine ps pn lines i raw) := by
  obtain ⟨h1, h2, h3⟩ := h
  unfold processLine
  dsimp only
  split
  · exact ⟨h1, h2, h3⟩
  split
  · exact ⟨h1, h2, h3⟩
  split
  · exact ⟨h1, h2, h3⟩
  split
  · -- scene_heading element
    rename_i heq
    unfold pushScene
    dsimp only
    split
    · -- previous scene pushed
      refine ⟨?_, ?_, ?_⟩
      · simp_all [scenesElems, nonHeadingElems, List.filter_append,
          List.filter_cons, List.map_append, List.flatten_append, heq]
      · unfold sceneHeadTexts at h2
        simp only [List.filterMap_append, filterMap_headingSrc_single]
        simp only [sceneHeadTexts, List.filter_append, List.map_append]
        rw [h2]
        simp [List.filter_cons, heq]
      · intro sc hsc
        rcases List.mem_append.mp hsc with hs | hs
        · exact h3 sc hs
        · rw [List.mem_singleton.mp hs]
          exact ⟨rfl, rfl⟩
    · -- nothing to push: both current fields are empty
      rename_i hnop
      have hh : ps.curHeading = none := by
        rcases hv : ps.curHeading with _ | v
        · rfl
        · exact absurd (by rw [hv]; rfl) hnop
      have he : ps.curElems = [] := by
        rcases hel : ps.curElems with _ | ⟨a, l⟩
        · rfl
        · refine absurd ?_ hnop
          rw [hel]
          simp
      refine ⟨?_, ?_, ?_⟩
      · simp_all [scenesElems, nonHeadingElems, sceneHeadTexts,
          List.filter_append, List.filter_cons, List.map_append,
          List.flatten_append, heq]
      · simp_all [scenesElems, nonHeadingElems, sceneHeadTexts,
          List.filter_append, List.filter_cons, List.map_append,
          List.flatten_append, heq]
      · exact h3
  · -- character element
    rename_i heq
    refine ⟨?_, ?_, ?_⟩
    · simp_all [scenesElems, nonHeadingElems, sceneHeadTexts,
        List.filter_append, List.filter_cons, List.map_append,
        List.flatten_append, heq]
      rw [← List.append_assoc, h1]
    · simp_all [scenesElems, nonHeadingElems, sceneHeadTexts,
        List.filter_append, List.filter_cons, List.map_append,
        List.flatten_append, heq]
    · exact h3
  · -- every other element type
    rename_i hne1 hne2
    have hkeep : ((classifyLine ps.cstate (clean raw) i lines).1.type ==
        ElemType.scene_heading) = false := by
      cases hty : (classifyLine ps.cstate (clean raw) i lines).1.type <;>
        simp_all
    refine ⟨?_, ?_, ?_⟩
    · simp_all [scenesElems, nonHeadingElems, sceneHeadTexts,
        List.filter_append, List.filter_cons, List.map_append,
        List.flatten_append]
      rw [← List.append_assoc, h1]
    · simp_all [scenesElems, nonHeadingElems, sceneHeadTexts,
        List.filter_append, List.filter_cons, List.map_append,
        List.flatten_append]
    · exact h3

theorem foldl_preserve {A B : Type} (P : A → Prop) (f : A → B → A)
    (hf : ∀ a b, P a → P (f a b)) :
    ∀ (l : List B) (a : A), P a → P (l.foldl f a) := by
  intro l
  induction l with
  | nil => intro a ha; exact ha
  | cons b t ih => intro a ha; exact ih (f a b) (hf a b ha)

theorem processPage_inv (ps : PState) (page : Nat × List Str)
    (h : parseInv ps) : parseInv (processPage ps page) := by
  unfold processPage
  exact foldl_preserve parseInv _
    (fun a il ha => processLine_inv a page.1 page.2 il.1 il.2 ha) _ _ h

/-- Counterexample to C7 as stated: the scene-heading element is NOT
appended to its scene's content — the parsed kitchen document has one
scene whose content does not contain the heading line, which lives only in
the separate `heading` field. -/
theorem claim_C7_counterexample :
    (parseSeq kitchenDoc).length = 1 ∧
    ((parseSeq kitchenDoc).all fun sc =>
      !isSub (strOf "INT. KITCHEN - DAY") sc.content) = true ∧
    ((parseSeq kitchenDoc).all fun sc =>
      sc.heading == strOf "            INT. KITCHEN - DAY") = true :=
  ⟨by rfl, by rfl, by rfl⟩

/-- C7 (amended): the scenes exactly partition the emitted element stream —
concatenating the scenes' element lists in document order yields precisely
the non-scene-heading elements emitted by the classifier, each scene's
content is the canonical-indentation rendering of exactly its own element
list, and each scene-heading element becomes (in order) the rendered
`heading` field of exactly one scene rather than part of any content. -/
theorem claim_C7_amended (pages : List (Nat × List Str)) :
    scenesElems (parseSeq pages) = nonHeadingElems (docEmitted pages) ∧
    (parseSeq pages).filterMap Scene.headingSrc = sceneHeadTexts (docEmitted pages) ∧
    ((parseSeq pages).all fun sc =>
      sc.content == formatScreenplayContent sc.elems &&
      sc.heading == renderHeading sc.headingSrc) = true := by
  have hinv : parseInv (pages.foldl processPage initPState) :=
    foldl_preserve parseInv processPage (fun a b ha => processPage_inv a b ha)
      pages initPState ⟨rfl, rfl, by intro sc hsc; cases hsc⟩
  obtain ⟨h1, h2, h3⟩ := hinv
  unfold parseSeq docEmitted
  unfold pushScene
  dsimp only
  split
  · refine ⟨?_, ?_, ?_⟩
    · simp_all [scenesElems, List.map_append, List.flatten_append]
    · simp only [List.filterMap_append, filterMap_headingSrc_single]
      exact h2
    · rw [List.all_eq_true]
      intro sc hsc
      rcases List.mem_append.mp hsc with hs | hs
      · obtain ⟨hc, hh⟩ := h3 sc hs
        simp [hc, hh]
      · rw [List.mem_singleton.mp hs]
        simp
  · rename_i hnop
    have hh : (pages.foldl processPage initPState).curHeading = none := by
      rcases hv : (pages.foldl processPage initPState).curHeading with _ | v
      · rfl
      · exact absurd (by rw [hv]; rfl) hnop
    have he : (pages.foldl processPage initPState).curElems = [] := by
      rcases hel : (pages.foldl processPage initPState).curElems with _ | l
      · rfl
      · refine absurd ?_ hnop
        rw [hel]
        simp
    refine ⟨?_, ?_, ?_⟩
    · simp_all
    · simp_all
    · rw [List.all_eq_true]
      intro sc hsc
      obtain ⟨hc, hh⟩ := h3 sc hsc
      simp [hc, hh]

end ScreenplayPDF
